import Mathlib

/-!
Shallow embedding of the boundary/halo exchange subsystem of the Athena
mesh code (`src/bvals/bvals.cpp`), together with proofs of the testable
properties of its specification.

The embedding follows the source file:
* `InitBoundaryBuffer` becomes the pure index-range tables
  (`fluid_send_se`, `fluid_recv_se`, `field_send_se`, `field_recv_se`)
  and buffer-size tables (`fluid_bufsize`, `field_bufsize`,
  `eflux_bufsize`), parameterised by the ghost width `g` (NGHOST) and the
  interior extents `nx1 nx2 nx3`;
* the pack/unpack loop nests of `LoadAndSend…`/`ReceiveAndSet…` become
  ordered location lists (`locs4`, `fieldSendLocs`, `efluxSendLocs`, …)
  and `List.map`/write-list folds over them, in the loop order of the
  source (component outermost, then k, j, i innermost);
* per-block communication state (`ChanBdry`) carries the neighbor table
  entries, send/receive buffers, completion flags, and posted-request
  markers of one channel of one block; the transfer operations are
  state-passing functions on it.

Machine `int`s are modelled by `ℤ`, `Real` payloads by an arbitrary
value type `α`, and the fallible constructor/enrollment paths by
`Except`.
-/

namespace Athena

/-- The inclusive integer range `[a, b]` as a list in increasing order
(the index set of a C loop `for (x = a; x <= b; ++x)`). -/
def intRange (a b : ℤ) : List ℤ :=
  (List.range (b + 1 - a).toNat).map (fun t : ℕ => a + (t : ℤ))

/-- One entry of the boundary index-range tables: the inclusive start/end
indices in each of the three grid directions (`…_se_[…][0..5]` in the
source). -/
structure SE where
  si : ℤ
  ei : ℤ
  sj : ℤ
  ej : ℤ
  sk : ℤ
  ek : ℤ
deriving DecidableEq

/-- `is` as computed at the top of `InitBoundaryBuffer`. -/
def ibb_is (g : ℤ) : ℤ := g

/-- `ie` as computed at the top of `InitBoundaryBuffer`. -/
def ibb_ie (g nx1 : ℤ) : ℤ := g + nx1 - 1

/-- `js` as computed at the top of `InitBoundaryBuffer` (0 in 1D). -/
def ibb_js (g nx2 : ℤ) : ℤ := if 1 < nx2 then g else 0

/-- `je` as computed at the top of `InitBoundaryBuffer` (0 in 1D). -/
def ibb_je (g nx2 : ℤ) : ℤ := if 1 < nx2 then g + nx2 - 1 else 0

/-- `ks` as computed at the top of `InitBoundaryBuffer`. -/
def ibb_ks (g nx3 : ℤ) : ℤ := if 1 < nx3 then g else 0

/-- `ke` as computed at the top of `InitBoundaryBuffer`. -/
def ibb_ke (g nx3 : ℤ) : ℤ := if 1 < nx3 then g + nx3 - 1 else 0

/-- The opposite-direction map computed inline in every `LoadAndSend…`
function: `oside = dir + 1` for even `dir`, `dir - 1` for odd `dir`. -/
def oside (d : ℕ) : ℕ := if d % 2 = 0 then d + 1 else d - 1

/-- `fluid_send_se_`: send index ranges of the cell-centered (BulkState)
channel, per direction, as filled by `InitBoundaryBuffer`. -/
def fluid_send_se (g nx1 nx2 nx3 : ℤ) (d : ℕ) : SE :=
  let is := ibb_is g
  let ie := ibb_ie g nx1
  let js := ibb_js g nx2
  let je := ibb_je g nx2
  let ks := ibb_ks g nx3
  let ke := ibb_ke g nx3
  match d with
  | 0 => ⟨is, is + g - 1, js, je, ks, ke⟩
  | 1 => ⟨ie - g + 1, ie, js, je, ks, ke⟩
  | 2 => ⟨0, ie + g, js, js + g - 1, ks, ke⟩
  | 3 => ⟨0, ie + g, je - g + 1, je, ks, ke⟩
  | 4 => ⟨0, ie + g, 0, je + g, ks, ks + g - 1⟩
  | 5 => ⟨0, ie + g, 0, je + g, ke - g + 1, ke⟩
  | _ => ⟨0, 0, 0, 0, 0, 0⟩

/-- `fluid_recv_se_`: receive index ranges of the cell-centered channel. -/
def fluid_recv_se (g nx1 nx2 nx3 : ℤ) (d : ℕ) : SE :=
  let is := ibb_is g
  let ie := ibb_ie g nx1
  let js := ibb_js g nx2
  let je := ibb_je g nx2
  let ks := ibb_ks g nx3
  let ke := ibb_ke g nx3
  match d with
  | 0 => ⟨is - g, is - 1, js, je, ks, ke⟩
  | 1 => ⟨ie + 1, ie + g, js, je, ks, ke⟩
  | 2 => ⟨0, ie + g, js - g, js - 1, ks, ke⟩
  | 3 => ⟨0, ie + g, je + 1, je + g, ks, ke⟩
  | 4 => ⟨0, ie + g, 0, je + g, ks - g, ks - 1⟩
  | 5 => ⟨0, ie + g, 0, je + g, ke + 1, ke + g⟩
  | _ => ⟨0, 0, 0, 0, 0, 0⟩

/-- `fluid_bufsize_`: element counts of the cell-centered boundary
buffers (`nf` is the component count NFLUID). -/
def fluid_bufsize (g nx1 nx2 nx3 : ℤ) (nf : ℕ) (d : ℕ) : ℤ :=
  match d with
  | 0 => g * nx2 * nx3 * nf
  | 1 => g * nx2 * nx3 * nf
  | 2 => (nx1 + 2 * g) * g * nx3 * nf
  | 3 => (nx1 + 2 * g) * g * nx3 * nf
  | 4 => (nx1 + 2 * g) * (nx2 + 2 * g) * g * nf
  | 5 => (nx1 + 2 * g) * (nx2 + 2 * g) * g * nf
  | _ => 0

/-- `field_send_se_`: send index ranges of the face-centered
(VectorField) channel; `f` is the face component (0 = x1face, 1 = x2face,
2 = x3face). -/
def field_send_se (g nx1 nx2 nx3 : ℤ) (d f : ℕ) : SE :=
  let is := ibb_is g
  let ie := ibb_ie g nx1
  let js := ibb_js g nx2
  let je := ibb_je g nx2
  let ks := ibb_ks g nx3
  let ke := ibb_ke g nx3
  match d, f with
  | 0, 0 => ⟨is + 1, is + g, js, je, ks, ke⟩
  | 0, 1 => ⟨is, is + g - 1, js, je + 1, ks, ke⟩
  | 0, 2 => ⟨is, is + g - 1, js, je, ks, ke + 1⟩
  | 1, 0 => ⟨ie - g + 1, ie, js, je, ks, ke⟩
  | 1, 1 => ⟨ie - g + 1, ie, js, je + 1, ks, ke⟩
  | 1, 2 => ⟨ie - g + 1, ie, js, je, ks, ke + 1⟩
  | 2, 0 => ⟨0, ie + g + 1, js, js + g - 1, ks, ke⟩
  | 2, 1 => ⟨0, ie + g, js + 1, js + g, ks, ke⟩
  | 2, 2 => ⟨0, ie + g, js, js + g - 1, ks, ke + 1⟩
  | 3, 0 => ⟨0, ie + g + 1, je - g + 1, je, ks, ke⟩
  | 3, 1 => ⟨0, ie + g, je - g + 1, je, ks, ke⟩
  | 3, 2 => ⟨0, ie + g, je - g + 1, je, ks, ke + 1⟩
  | 4, 0 => ⟨0, ie + g + 1, 0, je + g, ks, ks + g - 1⟩
  | 4, 1 => ⟨0, ie + g, 0, je + g + 1, ks, ks + g - 1⟩
  | 4, 2 => ⟨0, ie + g, 0, je + g, ks + 1, ks + g⟩
  | 5, 0 => ⟨0, ie + g + 1, 0, je + g, ke - g + 1, ke⟩
  | 5, 1 => ⟨0, ie + g, 0, je + g + 1, ke - g + 1, ke⟩
  | 5, 2 => ⟨0, ie + g, 0, je + g, ke - g + 1, ke⟩
  | _, _ => ⟨0, 0, 0, 0, 0, 0⟩

/-- `field_recv_se_`: receive index ranges of the face-centered channel. -/
def field_recv_se (g nx1 nx2 nx3 : ℤ) (d f : ℕ) : SE :=
  let is := ibb_is g
  let ie := ibb_ie g nx1
  let js := ibb_js g nx2
  let je := ibb_je g nx2
  let ks := ibb_ks g nx3
  let ke := ibb_ke g nx3
  match d, f with
  | 0, 0 => ⟨is - g, is - 1, js, je, ks, ke⟩
  | 0, 1 => ⟨is - g, is - 1, js, je + 1, ks, ke⟩
  | 0, 2 => ⟨is - g, is - 1, js, je, ks, ke + 1⟩
  | 1, 0 => ⟨ie + 2, ie + g + 1, js, je, ks, ke⟩
  | 1, 1 => ⟨ie + 1, ie + g, js, je + 1, ks, ke⟩
  | 1, 2 => ⟨ie + 1, ie + g, js, je, ks, ke + 1⟩
  | 2, 0 => ⟨0, ie + g + 1, js - g, js - 1, ks, ke⟩
  | 2, 1 => ⟨0, ie + g, js - g, js - 1, ks, ke⟩
  | 2, 2 => ⟨0, ie + g, js - g, js - 1, ks, ke + 1⟩
  | 3, 0 => ⟨0, ie + g + 1, je + 1, je + g, ks, ke⟩
  | 3, 1 => ⟨0, ie + g, je + 2, je + g + 1, ks, ke⟩
  | 3, 2 => ⟨0, ie + g, je + 1, je + g, ks, ke + 1⟩
  | 4, 0 => ⟨0, ie + g + 1, 0, je + g, ks - g, ks - 1⟩
  | 4, 1 => ⟨0, ie + g, 0, je + g + 1, ks - g, ks - 1⟩
  | 4, 2 => ⟨0, ie + g, 0, je + g, ks - g, ks - 1⟩
  | 5, 0 => ⟨0, ie + g + 1, 0, je + g, ke + 1, ke + g⟩
  | 5, 1 => ⟨0, ie + g, 0, je + g + 1, ke + 1, ke + g⟩
  | 5, 2 => ⟨0, ie + g, 0, je + g, ke + 2, ke + g + 1⟩
  | _, _ => ⟨0, 0, 0, 0, 0, 0⟩

/-- `field_bufsize_`: element counts of the face-centered boundary
buffers. -/
def field_bufsize (g nx1 nx2 nx3 : ℤ) (d : ℕ) : ℤ :=
  match d with
  | 0 => g * (nx2 * nx3 + (nx2 + 1) * nx3 + nx2 * (nx3 + 1))
  | 1 => g * (nx2 * nx3 + (nx2 + 1) * nx3 + nx2 * (nx3 + 1))
  | 2 => g * ((nx1 + 2 * g) * nx3 + (nx1 + 2 * g + 1) * nx3 + (nx1 + 2 * g) * (nx3 + 1))
  | 3 => g * ((nx1 + 2 * g) * nx3 + (nx1 + 2 * g + 1) * nx3 + (nx1 + 2 * g) * (nx3 + 1))
  | 4 => g * ((nx1 + 2 * g + 1) * (nx2 + 2 * g) + (nx1 + 2 * g) * (nx2 + 2 * g + 1)
         + (nx1 + 2 * g) * (nx2 + 2 * g))
  | 5 => g * ((nx1 + 2 * g + 1) * (nx2 + 2 * g) + (nx1 + 2 * g) * (nx2 + 2 * g + 1)
         + (nx1 + 2 * g) * (nx2 + 2 * g))
  | _ => 0

/-- `eflux_bufsize_`: element counts of the edge-flux boundary buffers.
The global arrays are zero-initialised; `InitBoundaryBuffer` overwrites
entries only when `nx2 > 1` (2D sets directions 0–3, 3D sets 0–5), so
unset entries stay 0; 2D table. -/
def eflux_bufsize2D (nx1 nx2 : ℤ) (d : ℕ) : ℤ :=
  match d with
  | 0 => (nx2 + 1) * 2
  | 1 => (nx2 + 1) * 2
  | 2 => (nx1 + 1) * 2
  | 3 => (nx1 + 1) * 2
  | _ => 0

/-- See `eflux_bufsize`. -/
def eflux_bufsize3D (nx1 nx2 nx3 : ℤ) (d : ℕ) : ℤ :=
  match d with
  | 0 => (nx2 + 1) * nx3 * 2 + nx2 * (nx3 + 1) * 2
  | 1 => (nx2 + 1) * nx3 * 2 + nx2 * (nx3 + 1) * 2
  | 2 => (nx1 + 1) * nx3 * 2 + nx1 * (nx3 + 1) * 2
  | 3 => (nx1 + 1) * nx3 * 2 + nx1 * (nx3 + 1) * 2
  | 4 => (nx1 + 1) * nx2 * 2 + nx1 * (nx2 + 1) * 2
  | 5 => (nx1 + 1) * nx2 * 2 + nx1 * (nx2 + 1) * 2
  | _ => 0

/-- `eflux_bufsize_`: element counts of the edge-flux boundary buffers
(0 for entries `InitBoundaryBuffer` leaves untouched). -/
def eflux_bufsize (g nx1 nx2 nx3 : ℤ) (d : ℕ) : ℤ :=
  if nx2 = 1 then 0
  else if nx3 = 1 then eflux_bufsize2D nx1 nx2 d
  else eflux_bufsize3D nx1 nx2 nx3 d

/-- The `(k, j, i)` index tuples visited by a triple loop nest
`for k { for j { for i } }` over an index-range entry, in visit order. -/
def locs3 (se : SE) : List (ℤ × ℤ × ℤ) :=
  (intRange se.sk se.ek) ×ˢ ((intRange se.sj se.ej) ×ˢ (intRange se.si se.ei))

/-- The `(n, k, j, i)` index tuples visited by the quadruple pack loop
nest of the fluid channel (`for n { for k { for j { for i } } }`),
`nf` = NFLUID, in visit order. -/
def locs4 (nf : ℕ) (se : SE) : List (ℕ × ℤ × ℤ × ℤ) :=
  (List.range nf) ×ˢ locs3 se

/-- The send buffer contents produced by the fluid pack loops of
`LoadAndSendFluidBoundaryBuffer` (`sendbuf[p++] = src(n,k,j,i)`). -/
def packCC (nf : ℕ) (se : SE) (src : ℕ × ℤ × ℤ × ℤ → α) : List α :=
  (locs4 nf se).map src

/-- A face-centered (InterfaceField) array location: which of the three
face arrays, and the `(k, j, i)` index into it. -/
inductive FLoc where
  | x1f (k j i : ℤ)
  | x2f (k j i : ℤ)
  | x3f (k j i : ℤ)
deriving DecidableEq

/-- The ordered locations read by the three pack loop nests of
`LoadAndSendFieldBoundaryBuffer` (x1f block, then x2f, then x3f). -/
def fieldSendLocs (g nx1 nx2 nx3 : ℤ) (d : ℕ) : List FLoc :=
  (locs3 (field_send_se g nx1 nx2 nx3 d 0)).map (fun t => .x1f t.1 t.2.1 t.2.2)
  ++ (locs3 (field_send_se g nx1 nx2 nx3 d 1)).map (fun t => .x2f t.1 t.2.1 t.2.2)
  ++ (locs3 (field_send_se g nx1 nx2 nx3 d 2)).map (fun t => .x3f t.1 t.2.1 t.2.2)

/-- The ordered locations written by the three unpack loop nests of
`ReceiveAndSetFieldBoundary`. -/
def fieldRecvLocs (g nx1 nx2 nx3 : ℤ) (d : ℕ) : List FLoc :=
  (locs3 (field_recv_se g nx1 nx2 nx3 d 0)).map (fun t => .x1f t.1 t.2.1 t.2.2)
  ++ (locs3 (field_recv_se g nx1 nx2 nx3 d 1)).map (fun t => .x2f t.1 t.2.1 t.2.2)
  ++ (locs3 (field_recv_se g nx1 nx2 nx3 d 2)).map (fun t => .x3f t.1 t.2.1 t.2.2)

/-- The send buffer contents produced by the field pack loops. -/
def packField (g nx1 nx2 nx3 : ℤ) (d : ℕ) (src : FLoc → α) : List α :=
  (fieldSendLocs g nx1 nx2 nx3 d).map src

/-- An edge-flux location: a component slice of one of the three flux
(`fsrc.x1f/x2f/x3f`, with edge-component selector `c`) or weight
(`wsrc.x1f/x2f/x3f`) arrays, at index `(k, j, i)`. -/
inductive EfLoc where
  | fx1 (c : ℕ) (k j i : ℤ)
  | fx2 (c : ℕ) (k j i : ℤ)
  | fx3 (c : ℕ) (k j i : ℤ)
  | wx1 (k j i : ℤ)
  | wx2 (k j i : ℤ)
  | wx3 (k j i : ℤ)
deriving DecidableEq

/-- Modelled from the spec: the edge-component selector constants
`X1E2, X1E3, X2E3, X2E1, X3E1, X3E2` come from the header `athena.hpp`,
which is not part of the sources; the exchange subsystem only requires
them to be fixed indices into the two component slices of each edge
array, so they are modelled as fixed naturals. -/
def X1E2 : ℕ := 0

/-- See `X1E2`. -/
def X1E3 : ℕ := 1

/-- See `X1E2`. -/
def X2E3 : ℕ := 0

/-- See `X1E2`. -/
def X2E1 : ℕ := 1

/-- See `X1E2`. -/
def X3E1 : ℕ := 0

/-- See `X1E2`. -/
def X3E2 : ℕ := 1

/-- Ordered source locations of the 2D edge-flux pack loops of
`LoadAndSendEFluxBoundaryBuffer` (the `nx3 == 1` section): per
direction, the flux samples of the in-plane edge line followed by their
weight samples. -/
def efluxSendLocs2D (g nx1 nx2 : ℤ) (d : ℕ) : List EfLoc :=
  let is := ibb_is g
  let ie := ibb_ie g nx1
  let js := ibb_js g nx2
  let je := ibb_je g nx2
  let ks : ℤ := 0
  match d with
  | 0 => (intRange js (je + 1)).map (fun j => .fx2 X2E3 ks j is)
      ++ (intRange js (je + 1)).map (fun j => .wx2 ks j is)
  | 1 => (intRange js (je + 1)).map (fun j => .fx2 X2E3 ks j ie)
      ++ (intRange js (je + 1)).map (fun j => .wx2 ks j ie)
  | 2 => (intRange is (ie + 1)).map (fun i => .fx1 X1E3 ks js i)
      ++ (intRange is (ie + 1)).map (fun i => .wx1 ks js i)
  | 3 => (intRange is (ie + 1)).map (fun i => .fx1 X1E3 ks je i)
      ++ (intRange is (ie + 1)).map (fun i => .wx1 ks je i)
  | _ => []

/-- Ordered source locations of the 3D edge-flux pack loops (the `else`
section of `LoadAndSendEFluxBoundaryBuffer`): per direction, two edge
segments, each as a flux block followed by its weight block. -/
def efluxSendLocs3D (g nx1 nx2 nx3 : ℤ) (d : ℕ) : List EfLoc :=
  let is := ibb_is g
  let ie := ibb_ie g nx1
  let js := ibb_js g nx2
  let je := ibb_je g nx2
  let ks := ibb_ks g nx3
  let ke := ibb_ke g nx3
  match d with
  | 0 => ((intRange ks ke) ×ˢ (intRange js (je + 1))).map (fun t => .fx2 X2E3 t.1 t.2 is)
      ++ ((intRange ks ke) ×ˢ (intRange js (je + 1))).map (fun t => .wx2 t.1 t.2 is)
      ++ ((intRange ks (ke + 1)) ×ˢ (intRange js je)).map (fun t => .fx3 X3E2 t.1 t.2 is)
      ++ ((intRange ks (ke + 1)) ×ˢ (intRange js je)).map (fun t => .wx3 t.1 t.2 is)
  | 1 => ((intRange ks ke) ×ˢ (intRange js (je + 1))).map (fun t => .fx2 X2E3 t.1 t.2 ie)
      ++ ((intRange ks ke) ×ˢ (intRange js (je + 1))).map (fun t => .wx2 t.1 t.2 ie)
      ++ ((intRange ks (ke + 1)) ×ˢ (intRange js je)).map (fun t => .fx3 X3E2 t.1 t.2 ie)
      ++ ((intRange ks (ke + 1)) ×ˢ (intRange js je)).map (fun t => .wx3 t.1 t.2 ie)
  | 2 => ((intRange ks ke) ×ˢ (intRange is (ie + 1))).map (fun t => .fx1 X1E3 t.1 js t.2)
      ++ ((intRange ks ke) ×ˢ (intRange is (ie + 1))).map (fun t => .wx1 t.1 js t.2)
      ++ ((intRange ks (ke + 1)) ×ˢ (intRange is ie)).map (fun t => .fx3 X3E1 t.1 js t.2)
      ++ ((intRange ks (ke + 1)) ×ˢ (intRange is ie)).map (fun t => .wx3 t.1 js t.2)
  | 3 => ((intRange ks ke) ×ˢ (intRange is (ie + 1))).map (fun t => .fx1 X1E3 t.1 je t.2)
      ++ ((intRange ks ke) ×ˢ (intRange is (ie + 1))).map (fun t => .wx1 t.1 je t.2)
      ++ ((intRange ks (ke + 1)) ×ˢ (intRange is ie)).map (fun t => .fx3 X3E1 t.1 je t.2)
      ++ ((intRange ks (ke + 1)) ×ˢ (intRange is ie)).map (fun t => .wx3 t.1 je t.2)
  | 4 => ((intRange js je) ×ˢ (intRange is (ie + 1))).map (fun t => .fx1 X1E2 ks t.1 t.2)
      ++ ((intRange js je) ×ˢ (intRange is (ie + 1))).map (fun t => .wx1 ks t.1 t.2)
      ++ ((intRange js (je + 1)) ×ˢ (intRange is ie)).map (fun t => .fx2 X2E1 ks t.1 t.2)
      ++ ((intRange js (je + 1)) ×ˢ (intRange is ie)).map (fun t => .wx2 ks t.1 t.2)
  | 5 => ((intRange js je) ×ˢ (intRange is (ie + 1))).map (fun t => .fx1 X1E2 ke t.1 t.2)
      ++ ((intRange js je) ×ˢ (intRange is (ie + 1))).map (fun t => .wx1 ke t.1 t.2)
      ++ ((intRange js (je + 1)) ×ˢ (intRange is ie)).map (fun t => .fx2 X2E1 ke t.1 t.2)
      ++ ((intRange js (je + 1)) ×ˢ (intRange is ie)).map (fun t => .wx2 ke t.1 t.2)
  | _ => []

/-- Ordered source locations of the edge-flux pack loops: nothing in 1D
(the function returns before packing), the 2D loops when `nx3 == 1`,
the 3D loops otherwise. -/
def efluxSendLocs (g nx1 nx2 nx3 : ℤ) (d : ℕ) : List EfLoc :=
  if nx2 = 1 then []
  else if nx3 = 1 then efluxSendLocs2D g nx1 nx2 d
  else efluxSendLocs3D g nx1 nx2 nx3 d

/-- Ordered destination locations of the 2D edge-flux unpack loops of
`ReceiveAndSetEFluxBoundary` (ghost edge line of each direction). -/
def efluxRecvLocs2D (g nx1 nx2 : ℤ) (d : ℕ) : List EfLoc :=
  let is := ibb_is g
  let ie := ibb_ie g nx1
  let js := ibb_js g nx2
  let je := ibb_je g nx2
  let ks : ℤ := 0
  match d with
  | 0 => (intRange js (je + 1)).map (fun j => .fx2 X2E3 ks j (is - 1))
      ++ (intRange js (je + 1)).map (fun j => .wx2 ks j (is - 1))
  | 1 => (intRange js (je + 1)).map (fun j => .fx2 X2E3 ks j (ie + 1))
      ++ (intRange js (je + 1)).map (fun j => .wx2 ks j (ie + 1))
  | 2 => (intRange is (ie + 1)).map (fun i => .fx1 X1E3 ks (js - 1) i)
      ++ (intRange is (ie + 1)).map (fun i => .wx1 ks (js - 1) i)
  | 3 => (intRange is (ie + 1)).map (fun i => .fx1 X1E3 ks (je + 1) i)
      ++ (intRange is (ie + 1)).map (fun i => .wx1 ks (je + 1) i)
  | _ => []

/-- Ordered destination locations of the 3D edge-flux unpack loops. -/
def efluxRecvLocs3D (g nx1 nx2 nx3 : ℤ) (d : ℕ) : List EfLoc :=
  let is := ibb_is g
  let ie := ibb_ie g nx1
  let js := ibb_js g nx2
  let je := ibb_je g nx2
  let ks := ibb_ks g nx3
  let ke := ibb_ke g nx3
  match d with
  | 0 => ((intRange ks ke) ×ˢ (intRange js (je + 1))).map (fun t => .fx2 X2E3 t.1 t.2 (is - 1))
      ++ ((intRange ks ke) ×ˢ (intRange js (je + 1))).map (fun t => .wx2 t.1 t.2 (is - 1))
      ++ ((intRange ks (ke + 1)) ×ˢ (intRange js je)).map (fun t => .fx3 X3E2 t.1 t.2 (is - 1))
      ++ ((intRange ks (ke + 1)) ×ˢ (intRange js je)).map (fun t => .wx3 t.1 t.2 (is - 1))
  | 1 => ((intRange ks ke) ×ˢ (intRange js (je + 1))).map (fun t => .fx2 X2E3 t.1 t.2 (ie + 1))
      ++ ((intRange ks ke) ×ˢ (intRange js (je + 1))).map (fun t => .wx2 t.1 t.2 (ie + 1))
      ++ ((intRange ks (ke + 1)) ×ˢ (intRange js je)).map (fun t => .fx3 X3E2 t.1 t.2 (ie + 1))
      ++ ((intRange ks (ke + 1)) ×ˢ (intRange js je)).map (fun t => .wx3 t.1 t.2 (ie + 1))
  | 2 => ((intRange ks ke) ×ˢ (intRange is (ie + 1))).map (fun t => .fx1 X1E3 t.1 (js - 1) t.2)
      ++ ((intRange ks ke) ×ˢ (intRange is (ie + 1))).map (fun t => .wx1 t.1 (js - 1) t.2)
      ++ ((intRange ks (ke + 1)) ×ˢ (intRange is ie)).map (fun t => .fx3 X3E1 t.1 (js - 1) t.2)
      ++ ((intRange ks (ke + 1)) ×ˢ (intRange is ie)).map (fun t => .wx3 t.1 (js - 1) t.2)
  | 3 => ((intRange ks ke) ×ˢ (intRange is (ie + 1))).map (fun t => .fx1 X1E3 t.1 (je + 1) t.2)
      ++ ((intRange ks ke) ×ˢ (intRange is (ie + 1))).map (fun t => .wx1 t.1 (je + 1) t.2)
      ++ ((intRange ks (ke + 1)) ×ˢ (intRange is ie)).map (fun t => .fx3 X3E1 t.1 (je + 1) t.2)
      ++ ((intRange ks (ke + 1)) ×ˢ (intRange is ie)).map (fun t => .wx3 t.1 (je + 1) t.2)
  | 4 => ((intRange js je) ×ˢ (intRange is (ie + 1))).map (fun t => .fx1 X1E2 (ks - 1) t.1 t.2)
      ++ ((intRange js je) ×ˢ (intRange is (ie + 1))).map (fun t => .wx1 (ks - 1) t.1 t.2)
      ++ ((intRange js (je + 1)) ×ˢ (intRange is ie)).map (fun t => .fx2 X2E1 (ks - 1) t.1 t.2)
      ++ ((intRange js (je + 1)) ×ˢ (intRange is ie)).map (fun t => .wx2 (ks - 1) t.1 t.2)
  | 5 => ((intRange js je) ×ˢ (intRange is (ie + 1))).map (fun t => .fx1 X1E2 (ke + 1) t.1 t.2)
      ++ ((intRange js je) ×ˢ (intRange is (ie + 1))).map (fun t => .wx1 (ke + 1) t.1 t.2)
      ++ ((intRange js (je + 1)) ×ˢ (intRange is ie)).map (fun t => .fx2 X2E1 (ke + 1) t.1 t.2)
      ++ ((intRange js (je + 1)) ×ˢ (intRange is ie)).map (fun t => .wx2 (ke + 1) t.1 t.2)
  | _ => []

/-- Ordered destination locations of the edge-flux unpack loops. -/
def efluxRecvLocs (g nx1 nx2 nx3 : ℤ) (d : ℕ) : List EfLoc :=
  if nx2 = 1 then []
  else if nx3 = 1 then efluxRecvLocs2D g nx1 nx2 d
  else efluxRecvLocs3D g nx1 nx2 nx3 d

/-- Per-block, per-channel communication state: the neighbor-table entry
(`neighbor[dir][0][0].gid/.rank`), the send and receive buffers, the
completion flags, and markers recording which non-blocking requests have
been posted, all indexed by direction. -/
structure ChanBdry (α : Type) where
  nbrGid : ℕ → ℤ
  nbrRank : ℕ → ℤ
  send : ℕ → List α
  recv : ℕ → List α
  flag : ℕ → Bool
  reqRecv : ℕ → Bool
  reqSend : ℕ → Bool

/-- `std::memcpy(dst, src, n * sizeof(Real))` on buffers modelled as
lists: the first `n` elements come from `src`, the rest of `dst` is
untouched. -/
def memcpyN (n : ℕ) (src dst : List α) : List α :=
  src.take n ++ dst.drop n

/-- Apply an ordered list of writes `(location, value)` to a state seen
as a function from locations to values; later writes win, like the
sequential assignments of an unpack loop. -/
def applyWrites [DecidableEq κ] (ws : List (κ × α)) (f : κ → α) : κ → α :=
  ws.foldl (fun h kv => Function.update h kv.1 kv.2) f

/-- `BoundaryValues::LoadAndSendFluidBoundaryBuffer` for one sender
block `sB` and direction `dir`.  `nbr` is the same-process block found
by the `gid` search when `neighbor[dir].rank == myrank`; a remote
neighbor only gets a posted send (`reqSend`).  Returns (sender state,
neighbor state). -/
def loadAndSendFluidBoundaryBuffer (g nx1 nx2 nx3 : ℤ) (nf : ℕ) (myrank : ℤ)
    (sB : ChanBdry α) (dir : ℕ) (src : ℕ × ℤ × ℤ × ℤ → α) (nbr : ChanBdry α) :
    ChanBdry α × ChanBdry α :=
  if sB.nbrGid dir = -1 then (sB, nbr)
  else
    let sendbuf := packCC nf (fluid_send_se g nx1 nx2 nx3 dir) src
    let sB' := { sB with send := Function.update sB.send dir sendbuf }
    if sB.nbrRank dir = myrank then
      (sB', { nbr with
        recv := Function.update nbr.recv (oside dir)
          (memcpyN (fluid_bufsize g nx1 nx2 nx3 nf dir).toNat sendbuf
            (nbr.recv (oside dir))),
        flag := Function.update nbr.flag (oside dir) true })
    else
      ({ sB' with reqSend := Function.update sB'.reqSend dir true }, nbr)

/-- `BoundaryValues::ReceiveAndSetFluidBoundary`: physical boundary
(`gid == -1`) dispatches the registered handler on `dst`; otherwise the
receive buffer is unpacked over the receive range (after a blocking
`MPI_Wait` for a remote, not-yet-flagged transfer, which has no effect
on the modelled state) and the flag is cleared.  Returns (block state,
destination array, returned bool). -/
def receiveAndSetFluidBoundary (g nx1 nx2 nx3 : ℤ) (nf : ℕ)
    (blk : ChanBdry α) (dir : ℕ)
    (handler : (ℕ × ℤ × ℤ × ℤ → α) → (ℕ × ℤ × ℤ × ℤ → α))
    (dst : ℕ × ℤ × ℤ × ℤ → α) :
    ChanBdry α × (ℕ × ℤ × ℤ × ℤ → α) × Bool :=
  if blk.nbrGid dir = -1 then (blk, handler dst, true)
  else
    let dst' := applyWrites
      ((locs4 nf (fluid_recv_se g nx1 nx2 nx3 dir)).zip (blk.recv dir)) dst
    ({ blk with flag := Function.update blk.flag dir false }, dst', true)

/-- `BoundaryValues::ReceiveAndSetFieldBoundary`: like the fluid case
but unpacking the three face-component blocks in order. -/
def receiveAndSetFieldBoundary (g nx1 nx2 nx3 : ℤ)
    (blk : ChanBdry α) (dir : ℕ)
    (handler : (FLoc → α) → (FLoc → α)) (dst : FLoc → α) :
    ChanBdry α × (FLoc → α) × Bool :=
  if blk.nbrGid dir = -1 then (blk, handler dst, true)
  else
    let dst' := applyWrites
      ((fieldRecvLocs g nx1 nx2 nx3 dir).zip (blk.recv dir)) dst
    ({ blk with flag := Function.update blk.flag dir false }, dst', true)

/-- `BoundaryValues::StartReceivingFluid`: posts `MPI_Irecv` for every
direction with a real neighbor on another rank; it touches no buffer
and no completion flag. -/
def startReceivingFluid (myrank : ℤ) (blk : ChanBdry α) : ChanBdry α :=
  { blk with reqRecv := fun i =>
      if i < 6 ∧ blk.nbrGid i ≠ -1 ∧ blk.nbrRank i ≠ myrank then true
      else blk.reqRecv i }

/-- `BoundaryValues::StartReceivingField`: same shape as the fluid
post-receive step. -/
def startReceivingField (myrank : ℤ) (blk : ChanBdry α) : ChanBdry α :=
  { blk with reqRecv := fun i =>
      if i < 6 ∧ blk.nbrGid i ≠ -1 ∧ blk.nbrRank i ≠ myrank then true
      else blk.reqRecv i }

/-- `BoundaryValues::StartReceivingEFlux`: returns at once in 1D;
otherwise, for every direction up to `ndir` (4 in 2D, 6 in 3D), clears
the completion flag and posts a receive when the neighbor is real and
remote. -/
def startReceivingEFlux (myrank : ℤ) (nx2 nx3 : ℤ) (blk : ChanBdry α) : ChanBdry α :=
  if nx2 = 1 then blk
  else
    let ndir : ℕ := if 1 < nx3 then 6 else 4
    { blk with
      flag := fun i => if i < ndir then false else blk.flag i,
      reqRecv := fun i =>
        if i < ndir ∧ blk.nbrGid i ≠ -1 ∧ blk.nbrRank i ≠ myrank then true
        else blk.reqRecv i }

/-- The packing phase of `BoundaryValues::LoadAndSendEFluxBoundaryBuffer`
(everything before the routing loop): in 2D/3D, each direction with a
real neighbor gets its send buffer filled from the edge lines. -/
def efluxPackAll (g nx1 nx2 nx3 : ℤ) (sB : ChanBdry α) (src : EfLoc → α) :
    ChanBdry α :=
  if nx2 = 1 then sB
  else
    let ndir : ℕ := if 1 < nx3 then 6 else 4
    { sB with send := fun t =>
        if t < ndir ∧ sB.nbrGid t ≠ -1 then (efluxSendLocs g nx1 nx2 nx3 t).map src
        else sB.send t }

/-- One iteration of the routing loop of
`BoundaryValues::LoadAndSendEFluxBoundaryBuffer`: skip physical
boundaries; copy the packed buffer into the same-process neighbor's
receive buffer for the opposite direction and set that neighbor's flag;
or post a non-blocking send to a remote neighbor. -/
def efluxRouteDir (g nx1 nx2 nx3 : ℤ) (myrank : ℤ) (sB : ChanBdry α) (dir : ℕ)
    (nbr : ChanBdry α) : ChanBdry α × ChanBdry α :=
  if sB.nbrGid dir = -1 then (sB, nbr)
  else if sB.nbrRank dir = myrank then
    (sB, { nbr with
      recv := Function.update nbr.recv (oside dir)
        (memcpyN (eflux_bufsize g nx1 nx2 nx3 dir).toNat (sB.send dir)
          (nbr.recv (oside dir))),
      flag := Function.update nbr.flag (oside dir) true })
  else
    ({ sB with reqSend := Function.update sB.reqSend dir true }, nbr)

/-- `BoundaryValues::LoadAndSendEFluxBoundaryBuffer` restricted to a
sender/receiver pair: pack all directions, then route direction `dir`,
whose same-process neighbor is the block `nbr` (routing to the other
directions' neighbors does not touch these two blocks). -/
def loadAndSendEFluxPair (g nx1 nx2 nx3 : ℤ) (myrank : ℤ) (sB : ChanBdry α)
    (src : EfLoc → α) (dir : ℕ) (nbr : ChanBdry α) : ChanBdry α × ChanBdry α :=
  if nx2 = 1 then (sB, nbr)
  else efluxRouteDir g nx1 nx2 nx3 myrank (efluxPackAll g nx1 nx2 nx3 sB src) dir nbr

/-- The `MPI_Wait` loop at the top of
`BoundaryValues::ReceiveAndSetEFluxBoundary`: remote transfers are
waited for and their flags set. -/
def mpiWaitEFluxFlags (myrank : ℤ) (ndir : ℕ) (blk : ChanBdry α) : ℕ → Bool :=
  fun i =>
    if i < ndir ∧ blk.nbrGid i ≠ -1 ∧ blk.nbrRank i ≠ myrank then true
    else blk.flag i

/-- One per-direction block of `ReceiveAndSetEFluxBoundary`: a physical
boundary runs the registered edge-flux handler, a block boundary
unpacks the receive buffer over the ghost edge line. -/
def efluxConsume (g nx1 nx2 nx3 : ℤ) (blk : ChanBdry α)
    (handlers : ℕ → (EfLoc → α) → (EfLoc → α)) (t : ℕ) (dst : EfLoc → α) :
    EfLoc → α :=
  if blk.nbrGid t = -1 then handlers t dst
  else applyWrites ((efluxRecvLocs g nx1 nx2 nx3 t).zip (blk.recv t)) dst

/-- `BoundaryValues::ReceiveAndSetEFluxBoundary`: returns at once in 1D;
otherwise waits for remote transfers, then processes each direction in
order (handler or unpack, then clear that direction's flag; 2D handles
directions 0–3, 3D handles 0–5). -/
def receiveAndSetEFluxBoundary (g nx1 nx2 nx3 : ℤ) (myrank : ℤ)
    (blk : ChanBdry α) (handlers : ℕ → (EfLoc → α) → (EfLoc → α))
    (dst : EfLoc → α) : ChanBdry α × (EfLoc → α) × Bool :=
  if nx2 = 1 then (blk, dst, true)
  else
    let ndir : ℕ := if 1 < nx3 then 6 else 4
    let fl0 := mpiWaitEFluxFlags myrank ndir blk
    let d0 := efluxConsume g nx1 nx2 nx3 blk handlers 0 dst
    let fl1 := Function.update fl0 0 false
    let d1 := efluxConsume g nx1 nx2 nx3 blk handlers 1 d0
    let fl2 := Function.update fl1 1 false
    let d2 := efluxConsume g nx1 nx2 nx3 blk handlers 2 d1
    let fl3 := Function.update fl2 2 false
    let d3 := efluxConsume g nx1 nx2 nx3 blk handlers 3 d2
    let fl4 := Function.update fl3 3 false
    if 1 < nx3 then
      let d4 := efluxConsume g nx1 nx2 nx3 blk handlers 4 d3
      let fl5 := Function.update fl4 4 false
      let d5 := efluxConsume g nx1 nx2 nx3 blk handlers 5 d4
      let fl6 := Function.update fl5 5 false
      ({ blk with flag := fl6 }, d5, true)
    else
      ({ blk with flag := fl4 }, d3, true)

/-- The dispatch target a recognised boundary code resolves to:
the reflecting handler, the outflow handler, the user handler enrolled
later, or the NULL neighbor-transfer placeholder stored for codes
-1 / 3 / 4. -/
inductive BCKind where
  | reflect
  | outflow
  | null
  | user
deriving DecidableEq

/-- The `switch (block_bcs[dir])` of the `BoundaryValues` constructor:
codes 1 and 2 pick the reflecting/outflow handlers, codes -1, 3 and 4
store the NULL placeholder, anything else falls to the fatal default. -/
def classifyBC (c : ℤ) : Option BCKind :=
  if c = 1 then some .reflect
  else if c = 2 then some .outflow
  else if c = -1 ∨ c = 3 ∨ c = 4 then some .null
  else none

/-- Sequential processing of the constructor's per-direction switches:
the first direction whose code is unrecognised raises the fatal error
naming that direction and code; otherwise each processed direction's
handler slot is assigned. -/
def ctorFold (bcs : ℕ → ℤ) : List ℕ → (ℕ → Option BCKind) →
    Except (ℕ × ℤ) (ℕ → Option BCKind)
  | [], f => .ok f
  | d :: rest, f =>
    match classifyBC (bcs d) with
    | none => .error (d, bcs d)
    | some k => ctorFold bcs rest (Function.update f d (some k))

/-- The directions whose switch statements the constructor executes:
x1 always, x2 only when `nx2 > 1`, x3 only when `nx3 > 1`. -/
def ctorDirs (nx2 nx3 : ℤ) : List ℕ :=
  [0, 1] ++ (if 1 < nx2 then [2, 3] else []) ++ (if 1 < nx3 then [4, 5] else [])

/-- The boundary-function dispatch part of the `BoundaryValues`
constructor: handler slots start unassigned (`none`), the active
directions' switches run in order, and an unrecognised code raises the
fatal error carrying the offending direction and code value. -/
def bvalsCtor (bcs : ℕ → ℤ) (nx2 nx3 : ℤ) : Except (ℕ × ℤ) (ℕ → Option BCKind) :=
  ctorFold bcs (ctorDirs nx2 nx3) (fun _ => none)

/-- The fatal errors `EnrollFluidBoundaryFunction` and
`EnrollFieldBoundaryFunction` can raise: direction index out of range,
or the direction's mesh boundary flag is not the user-defined code 3. -/
inductive EnrollErr where
  | badDir (dir : ℤ)
  | notUserFlag (dir : ℤ)
deriving DecidableEq

/-- `BoundaryValues::EnrollFluidBoundaryFunction`: fatal if `dir` is out
of range or `mesh_bcs[dir] != 3`; otherwise the handler slot is updated
only when the direction has no neighbor (`gid == -1`) — a direction
backed by a neighbor is silently left unchanged. -/
def enrollFluidBoundaryFunction (meshBcs : ℕ → ℤ) (nbrGid : ℕ → ℤ)
    (fb : ℕ → Option BCKind) (dir : ℤ) (mybc : BCKind) :
    Except EnrollErr (ℕ → Option BCKind) :=
  if dir < 0 ∨ 5 < dir then .error (.badDir dir)
  else if meshBcs dir.toNat ≠ 3 then .error (.notUserFlag dir)
  else if nbrGid dir.toNat = -1 then .ok (Function.update fb dir.toNat (some mybc))
  else .ok fb

/-- `BoundaryValues::EnrollFieldBoundaryFunction`: identical control
flow to the fluid enrollment. -/
def enrollFieldBoundaryFunction (meshBcs : ℕ → ℤ) (nbrGid : ℕ → ℤ)
    (fb : ℕ → Option BCKind) (dir : ℤ) (mybc : BCKind) :
    Except EnrollErr (ℕ → Option BCKind) :=
  if dir < 0 ∨ 5 < dir then .error (.badDir dir)
  else if meshBcs dir.toNat ≠ 3 then .error (.notUserFlag dir)
  else if nbrGid dir.toNat = -1 then .ok (Function.update fb dir.toNat (some mybc))
  else .ok fb

/-- Projection of an index-range entry onto grid axis `a`
(0 = x1, 1 = x2, 2 = x3). -/
def axisBounds (se : SE) (a : ℕ) : ℤ × ℤ :=
  match a with
  | 0 => (se.si, se.ei)
  | 1 => (se.sj, se.ej)
  | _ => (se.sk, se.ek)

/-- Interior start index along axis `a`. -/
def axisLo (g nx2 nx3 : ℤ) (a : ℕ) : ℤ :=
  match a with
  | 0 => ibb_is g
  | 1 => ibb_js g nx2
  | _ => ibb_ks g nx3

/-- Interior end index along axis `a`. -/
def axisHi (g nx1 nx2 nx3 : ℤ) (a : ℕ) : ℤ :=
  match a with
  | 0 => ibb_ie g nx1
  | 1 => ibb_je g nx2
  | _ => ibb_ke g nx3

/-- The staggered-grid face index coincident with the boundary exchanged
by direction `d`: face `lo` of axis `d / 2` for an inner direction,
face `hi + 1` for an outer one. -/
def boundaryFace (g nx1 nx2 nx3 : ℤ) (d : ℕ) : ℤ :=
  if d % 2 = 0 then axisLo g nx2 nx3 (d / 2) else axisHi g nx1 nx2 nx3 (d / 2) + 1

/-- Concrete sender-block fluid state for witnesses: every direction has
neighbor gid 7 on rank 0, empty buffers, cleared flags. -/
def wB : ChanBdry ℤ :=
  ⟨fun _ => 7, fun _ => 0, fun _ => [], fun _ => [], fun _ => false,
   fun _ => false, fun _ => false⟩

/-- Concrete receiver-block fluid state for witnesses: every direction
has neighbor gid 3 on rank 0. -/
def wA : ChanBdry ℤ :=
  ⟨fun _ => 3, fun _ => 0, fun _ => [], fun _ => [], fun _ => false,
   fun _ => false, fun _ => false⟩

/-- Concrete block state whose every direction is a physical boundary
(neighbor gid is the sentinel -1). -/
def wPhys : ChanBdry ℤ :=
  ⟨fun _ => -1, fun _ => 0, fun _ => [], fun _ => [], fun _ => false,
   fun _ => false, fun _ => false⟩

/-- Concrete block state with a remote neighbor (gid 5, rank 1) in every
direction and every completion flag already true. -/
def wFlagged : ChanBdry ℤ :=
  ⟨fun _ => 5, fun _ => 1, fun _ => [], fun _ => [], fun _ => true,
   fun _ => false, fun _ => false⟩

/-- Boundary-code table of the C6 counterexample: a 1D block whose
(never-examined) inner-x2 code is the unrecognised value 99, all other
codes the recognised periodic code 4. -/
def c6bcs : ℕ → ℤ := fun d => if d = 2 then 99 else 4

/-- Mesh boundary-code table of the C7 counterexample: every direction
carries the user-defined code 3. -/
def c7mesh : ℕ → ℤ := fun _ => 3

/-- Neighbor-gid table of the C7 counterexample: every direction is
backed by an actual neighbor descriptor (gid 7, not the sentinel). -/
def c7gid : ℕ → ℤ := fun _ => 7

/-- Empty handler table of the C7 counterexample. -/
def c7fb : ℕ → Option BCKind := fun _ => none

/-- The weight location paired with a flux location: same edge array
axis and `(k, j, i)` index, weight slice instead of flux slice. -/
def pairedLoc : EfLoc → EfLoc
  | .fx1 _ k j i => .wx1 k j i
  | .fx2 _ k j i => .wx2 k j i
  | .fx3 _ k j i => .wx3 k j i
  | l => l

/-- The 2D edge-flux pack lists grouped per edge segment: each segment
is the pair (ordered flux sample locations, ordered weight sample
locations), sharing the same traversal order. -/
def efluxSendSegs2D (g nx1 nx2 : ℤ) (d : ℕ) : List (List EfLoc × List EfLoc) :=
  let is := ibb_is g
  let ie := ibb_ie g nx1
  let js := ibb_js g nx2
  let je := ibb_je g nx2
  let ks : ℤ := 0
  match d with
  | 0 => [((intRange js (je + 1)).map (fun j => .fx2 X2E3 ks j is),
           (intRange js (je + 1)).map (fun j => .wx2 ks j is))]
  | 1 => [((intRange js (je + 1)).map (fun j => .fx2 X2E3 ks j ie),
           (intRange js (je + 1)).map (fun j => .wx2 ks j ie))]
  | 2 => [((intRange is (ie + 1)).map (fun i => .fx1 X1E3 ks js i),
           (intRange is (ie + 1)).map (fun i => .wx1 ks js i))]
  | 3 => [((intRange is (ie + 1)).map (fun i => .fx1 X1E3 ks je i),
           (intRange is (ie + 1)).map (fun i => .wx1 ks je i))]
  | _ => []

/-- The 3D edge-flux pack lists grouped per edge segment (two segments
per direction). -/
def efluxSendSegs3D (g nx1 nx2 nx3 : ℤ) (d : ℕ) : List (List EfLoc × List EfLoc) :=
  let is := ibb_is g
  let ie := ibb_ie g nx1
  let js := ibb_js g nx2
  let je := ibb_je g nx2
  let ks := ibb_ks g nx3
  let ke := ibb_ke g nx3
  match d with
  | 0 => [(((intRange ks ke) ×ˢ (intRange js (je + 1))).map (fun t => .fx2 X2E3 t.1 t.2 is),
           ((intRange ks ke) ×ˢ (intRange js (je + 1))).map (fun t => .wx2 t.1 t.2 is)),
          (((intRange ks (ke + 1)) ×ˢ (intRange js je)).map (fun t => .fx3 X3E2 t.1 t.2 is),
           ((intRange ks (ke + 1)) ×ˢ (intRange js je)).map (fun t => .wx3 t.1 t.2 is))]
  | 1 => [(((intRange ks ke) ×ˢ (intRange js (je + 1))).map (fun t => .fx2 X2E3 t.1 t.2 ie),
           ((intRange ks ke) ×ˢ (intRange js (je + 1))).map (fun t => .wx2 t.1 t.2 ie)),
          (((intRange ks (ke + 1)) ×ˢ (intRange js je)).map (fun t => .fx3 X3E2 t.1 t.2 ie),
           ((intRange ks (ke + 1)) ×ˢ (intRange js je)).map (fun t => .wx3 t.1 t.2 ie))]
  | 2 => [(((intRange ks ke) ×ˢ (intRange is (ie + 1))).map (fun t => .fx1 X1E3 t.1 js t.2),
           ((intRange ks ke) ×ˢ (intRange is (ie + 1))).map (fun t => .wx1 t.1 js t.2)),
          (((intRange ks (ke + 1)) ×ˢ (intRange is ie)).map (fun t => .fx3 X3E1 t.1 js t.2),
           ((intRange ks (ke + 1)) ×ˢ (intRange is ie)).map (fun t => .wx3 t.1 js t.2))]
  | 3 => [(((intRange ks ke) ×ˢ (intRange is (ie + 1))).map (fun t => .fx1 X1E3 t.1 je t.2),
           ((intRange ks ke) ×ˢ (intRange is (ie + 1))).map (fun t => .wx1 t.1 je t.2)),
          (((intRange ks (ke + 1)) ×ˢ (intRange is ie)).map (fun t => .fx3 X3E1 t.1 je t.2),
           ((intRange ks (ke + 1)) ×ˢ (intRange is ie)).map (fun t => .wx3 t.1 je t.2))]
  | 4 => [(((intRange js je) ×ˢ (intRange is (ie + 1))).map (fun t => .fx1 X1E2 ks t.1 t.2),
           ((intRange js je) ×ˢ (intRange is (ie + 1))).map (fun t => .wx1 ks t.1 t.2)),
          (((intRange js (je + 1)) ×ˢ (intRange is ie)).map (fun t => .fx2 X2E1 ks t.1 t.2),
           ((intRange js (je + 1)) ×ˢ (intRange is ie)).map (fun t => .wx2 ks t.1 t.2))]
  | 5 => [(((intRange js je) ×ˢ (intRange is (ie + 1))).map (fun t => .fx1 X1E2 ke t.1 t.2),
           ((intRange js je) ×ˢ (intRange is (ie + 1))).map (fun t => .wx1 ke t.1 t.2)),
          (((intRange js (je + 1)) ×ˢ (intRange is ie)).map (fun t => .fx2 X2E1 ke t.1 t.2),
           ((intRange js (je + 1)) ×ˢ (intRange is ie)).map (fun t => .wx2 ke t.1 t.2))]
  | _ => []

/-- The edge-flux pack lists grouped per edge segment. -/
def efluxSendSegs (g nx1 nx2 nx3 : ℤ) (d : ℕ) : List (List EfLoc × List EfLoc) :=
  if nx2 = 1 then []
  else if nx3 = 1 then efluxSendSegs2D g nx1 nx2 d
  else efluxSendSegs3D g nx1 nx2 nx3 d

/-- Edge-array contents for the C4 counterexample: the flux sample of
the x2 edge array at index `(c, k, j, i)` is `j`, its paired weight
sample is `100 + j`. -/
def c4src : EfLoc → ℤ :=
  fun l => match l with
  | .fx2 _ _ j _ => j
  | .wx2 _ j _ => 100 + j
  | _ => 0

theorem length_intRange (a b : ℤ) : (intRange a b).length = (b + 1 - a).toNat := by
  rw [intRange, List.length_map, List.length_range]

theorem mem_intRange {a b x : ℤ} : x ∈ intRange a b ↔ a ≤ x ∧ x ≤ b := by
  simp only [intRange, List.mem_map, List.mem_range]
  constructor
  · rintro ⟨t, ht, rfl⟩
    omega
  · intro h
    refine ⟨(x - a).toNat, by omega, by omega⟩

theorem nodup_intRange (a b : ℤ) : (intRange a b).Nodup := by
  rw [intRange]
  refine List.Nodup.map ?_ (List.nodup_range _)
  intro s t h
  have h2 : (s : ℤ) = t := by exact_mod_cast add_left_cancel h
  exact_mod_cast h2

theorem getElem_intRange (a b : ℤ) (p : ℕ) (h : p < (intRange a b).length) :
    (intRange a b)[p] = a + p := by
  simp only [intRange, List.getElem_map, List.getElem_range]

theorem nodup_locs3 (se : SE) : (locs3 se).Nodup :=
  ((nodup_intRange _ _).product ((nodup_intRange _ _).product (nodup_intRange _ _)))

theorem nodup_locs4 (nf : ℕ) (se : SE) : (locs4 nf se).Nodup :=
  (List.nodup_range nf).product (nodup_locs3 se)

theorem locs3_length_int (se : SE) (hi : se.si ≤ se.ei + 1) (hj : se.sj ≤ se.ej + 1)
    (hk : se.sk ≤ se.ek + 1) :
    ((locs3 se).length : ℤ) =
      (se.ek + 1 - se.sk) * ((se.ej + 1 - se.sj) * (se.ei + 1 - se.si)) := by
  simp only [locs3, List.length_product, length_intRange]
  push_cast
  rw [Int.toNat_of_nonneg (by omega), Int.toNat_of_nonneg (by omega),
    Int.toNat_of_nonneg (by omega)]

theorem locs4_length_int (nf : ℕ) (se : SE) (hi : se.si ≤ se.ei + 1)
    (hj : se.sj ≤ se.ej + 1) (hk : se.sk ≤ se.ek + 1) :
    ((locs4 nf se).length : ℤ) =
      nf * ((se.ek + 1 - se.sk) * ((se.ej + 1 - se.sj) * (se.ei + 1 - se.si))) := by
  simp only [locs4, List.length_product, List.length_range]
  push_cast
  rw [locs3_length_int se hi hj hk]

theorem applyWrites_notMem [DecidableEq κ] (ws : List (κ × α)) (f : κ → α) (x : κ)
    (hx : x ∉ ws.map Prod.fst) : applyWrites ws f x = f x := by
  induction ws generalizing f with
  | nil => rfl
  | cons kv rest ih =>
    simp only [List.map_cons, List.mem_cons, not_or] at hx
    simp only [applyWrites, List.foldl_cons]
    rw [show (rest.foldl (fun h kv => Function.update h kv.1 kv.2)
        (Function.update f kv.1 kv.2)) x
        = applyWrites rest (Function.update f kv.1 kv.2) x from rfl,
      ih _ hx.2, Function.update_noteq hx.1]

theorem applyWrites_zip_getElem [DecidableEq κ] (keys : List κ) (vals : List α)
    (hnd : keys.Nodup) (f : κ → α) (p : ℕ) (hk : p < keys.length)
    (hv : p < vals.length) :
    applyWrites (keys.zip vals) f keys[p] = vals[p] := by
  induction keys generalizing vals f p with
  | nil => simp at hk
  | cons k ks ih =>
    match vals with
    | [] => simp at hv
    | v :: vs =>
      match p with
      | 0 =>
        simp only [List.zip_cons_cons, List.getElem_cons_zero]
        show applyWrites (ks.zip vs) (Function.update f k v) k = v
        rw [applyWrites_notMem]
        · exact Function.update_same k v f
        · intro hmem
          rcases List.mem_map.mp hmem with ⟨q, hq, hfst⟩
          have := List.of_mem_zip hq
          exact (List.nodup_cons.mp hnd).1 (hfst ▸ this.1)
      | p + 1 =>
        simp only [List.zip_cons_cons, List.getElem_cons_succ]
        exact ih vs (List.nodup_cons.mp hnd).2 (Function.update f k v) p
          (by simpa using hk) (by simpa using hv)

theorem fluid_send_len (g nx1 nx2 nx3 : ℤ) (nf : ℕ) (d : ℕ)
    (hg : 1 ≤ g) (h1 : 1 ≤ nx1) (h2 : 1 ≤ nx2) (h3 : 1 ≤ nx3)
    (h4 : 4 ≤ d → 1 < nx2) (hd : d < 6) :
    ((locs4 nf (fluid_send_se g nx1 nx2 nx3 d)).length : ℤ)
      = fluid_bufsize g nx1 nx2 nx3 nf d := by
  interval_cases d <;>
  · simp only [fluid_send_se, fluid_bufsize, ibb_is, ibb_ie, ibb_js, ibb_je, ibb_ks, ibb_ke]
    rw [locs4_length_int _ _ (by dsimp only; (try split_ifs) <;> omega)
      (by dsimp only; (try split_ifs) <;> omega) (by dsimp only; (try split_ifs) <;> omega)]
    dsimp only
    split_ifs <;>
      (try (have hx2 : nx2 = 1 := by omega
            subst hx2)) <;>
      (try (have hx3 : nx3 = 1 := by omega
            subst hx3)) <;>
      first
        | exact absurd (h4 (by omega)) (by omega)
        | ring

theorem fluid_recv_len (g nx1 nx2 nx3 : ℤ) (nf : ℕ) (d : ℕ)
    (hg : 1 ≤ g) (h1 : 1 ≤ nx1) (h2 : 1 ≤ nx2) (h3 : 1 ≤ nx3)
    (h4 : 4 ≤ d → 1 < nx2) (hd : d < 6) :
    ((locs4 nf (fluid_recv_se g nx1 nx2 nx3 d)).length : ℤ)
      = fluid_bufsize g nx1 nx2 nx3 nf d := by
  interval_cases d <;>
  · simp only [fluid_recv_se, fluid_bufsize, ibb_is, ibb_ie, ibb_js, ibb_je, ibb_ks, ibb_ke]
    rw [locs4_length_int _ _ (by dsimp only; (try split_ifs) <;> omega)
      (by dsimp only; (try split_ifs) <;> omega) (by dsimp only; (try split_ifs) <;> omega)]
    dsimp only
    split_ifs <;>
      (try (have hx2 : nx2 = 1 := by omega
            subst hx2)) <;>
      (try (have hx3 : nx3 = 1 := by omega
            subst hx3)) <;>
      first
        | exact absurd (h4 (by omega)) (by omega)
        | ring

set_option maxHeartbeats 1600000 in
theorem field_send_len (g nx1 nx2 nx3 : ℤ) (d : ℕ)
    (hg : 1 ≤ g) (h1 : 1 ≤ nx1) (h2 : 1 ≤ nx2) (h3 : 1 ≤ nx3)
    (h4 : 4 ≤ d → 1 < nx2) (hd : d < 6) :
    ((fieldSendLocs g nx1 nx2 nx3 d).length : ℤ) = field_bufsize g nx1 nx2 nx3 d := by
  interval_cases d <;>
  · simp only [fieldSendLocs, field_send_se, field_bufsize, List.length_append,
      List.length_map, locs3, List.length_product, length_intRange,
      ibb_is, ibb_ie, ibb_js, ibb_je, ibb_ks, ibb_ke]
    split_ifs <;>
      (try (have hx2 : nx2 = 1 := by omega
            subst hx2)) <;>
      (try (have hx3 : nx3 = 1 := by omega
            subst hx3)) <;>
      first
        | exact absurd (h4 (by omega)) (by omega)
        | (push_cast
           repeat rw [Int.toNat_of_nonneg (by omega)]
           ring)

set_option maxHeartbeats 1600000 in
theorem field_recv_len (g nx1 nx2 nx3 : ℤ) (d : ℕ)
    (hg : 1 ≤ g) (h1 : 1 ≤ nx1) (h2 : 1 ≤ nx2) (h3 : 1 ≤ nx3)
    (h4 : 4 ≤ d → 1 < nx2) (hd : d < 6) :
    ((fieldRecvLocs g nx1 nx2 nx3 d).length : ℤ) = field_bufsize g nx1 nx2 nx3 d := by
  interval_cases d <;>
  · simp only [fieldRecvLocs, field_recv_se, field_bufsize, List.length_append,
      List.length_map, locs3, List.length_product, length_intRange,
      ibb_is, ibb_ie, ibb_js, ibb_je, ibb_ks, ibb_ke]
    split_ifs <;>
      (try (have hx2 : nx2 = 1 := by omega
            subst hx2)) <;>
      (try (have hx3 : nx3 = 1 := by omega
            subst hx3)) <;>
      first
        | exact absurd (h4 (by omega)) (by omega)
        | (push_cast
           repeat rw [Int.toNat_of_nonneg (by omega)]
           ring)

theorem eflux_send_len (g nx1 nx2 nx3 : ℤ) (d : ℕ)
    (hg : 1 ≤ g) (h1 : 1 ≤ nx1) (h2 : 1 ≤ nx2) (h3 : 1 ≤ nx3) (hd : d < 6) :
    ((efluxSendLocs g nx1 nx2 nx3 d).length : ℤ) = eflux_bufsize g nx1 nx2 nx3 d := by
  rw [efluxSendLocs, eflux_bufsize]
  by_cases hb : nx2 = 1
  · simp [hb]
  · have hb' : 1 < nx2 := by omega
    rw [if_neg hb, if_neg hb]
    by_cases hc : nx3 = 1
    · rw [if_pos hc, if_pos hc]
      interval_cases d <;>
        simp only [efluxSendLocs2D, eflux_bufsize2D, List.length_append, List.length_map,
          length_intRange, ibb_is, ibb_ie, ibb_js, ibb_je, if_pos hb', List.length_nil] <;>
        (try push_cast) <;>
        (try repeat rw [Int.toNat_of_nonneg (by omega)]) <;>
        ring
    · have hc' : 1 < nx3 := by omega
      rw [if_neg hc, if_neg hc]
      interval_cases d <;>
        simp only [efluxSendLocs3D, eflux_bufsize3D, List.length_append, List.length_map,
          List.length_product, length_intRange, ibb_is, ibb_ie, ibb_js, ibb_je,
          ibb_ks, ibb_ke, if_pos hb', if_pos hc'] <;>
        push_cast <;>
        (repeat rw [Int.toNat_of_nonneg (by omega)]) <;>
        ring

theorem eflux_recv_len (g nx1 nx2 nx3 : ℤ) (d : ℕ)
    (hg : 1 ≤ g) (h1 : 1 ≤ nx1) (h2 : 1 ≤ nx2) (h3 : 1 ≤ nx3) (hd : d < 6) :
    ((efluxRecvLocs g nx1 nx2 nx3 d).length : ℤ) = eflux_bufsize g nx1 nx2 nx3 d := by
  rw [efluxRecvLocs, eflux_bufsize]
  by_cases hb : nx2 = 1
  · simp [hb]
  · have hb' : 1 < nx2 := by omega
    rw [if_neg hb, if_neg hb]
    by_cases hc : nx3 = 1
    · rw [if_pos hc, if_pos hc]
      interval_cases d <;>
        simp only [efluxRecvLocs2D, eflux_bufsize2D, List.length_append, List.length_map,
          length_intRange, ibb_is, ibb_ie, ibb_js, ibb_je, if_pos hb', List.length_nil] <;>
        (try push_cast) <;>
        (try repeat rw [Int.toNat_of_nonneg (by omega)]) <;>
        ring
    · have hc' : 1 < nx3 := by omega
      rw [if_neg hc, if_neg hc]
      interval_cases d <;>
        simp only [efluxRecvLocs3D, eflux_bufsize3D, List.length_append, List.length_map,
          List.length_product, length_intRange, ibb_is, ibb_ie, ibb_js, ibb_je,
          ibb_ks, ibb_ke, if_pos hb', if_pos hc'] <;>
        push_cast <;>
        (repeat rw [Int.toNat_of_nonneg (by omega)]) <;>
        ring

theorem oside_lt6 {d : ℕ} (hd : d < 6) : oside d < 6 := by
  unfold oside
  split_ifs with h <;> omega

theorem oside_ge4 {d : ℕ} (hd : d < 6) (h : 4 ≤ oside d) : 4 ≤ d := by
  interval_cases d <;> simp_all [oside]

theorem fluid_bufsize_oside (g nx1 nx2 nx3 : ℤ) (nf : ℕ) {d : ℕ} (hd : d < 6) :
    fluid_bufsize g nx1 nx2 nx3 nf (oside d) = fluid_bufsize g nx1 nx2 nx3 nf d := by
  interval_cases d <;> rfl

theorem field_bufsize_oside (g nx1 nx2 nx3 : ℤ) {d : ℕ} (hd : d < 6) :
    field_bufsize g nx1 nx2 nx3 (oside d) = field_bufsize g nx1 nx2 nx3 d := by
  interval_cases d <;> rfl

theorem eflux_bufsize_oside (g nx1 nx2 nx3 : ℤ) {d : ℕ} (hd : d < 6) :
    eflux_bufsize g nx1 nx2 nx3 (oside d) = eflux_bufsize g nx1 nx2 nx3 d := by
  interval_cases d <;> rfl

/-- C1: for every direction `d` and every channel (BulkState fluid,
VectorField field, EdgeFlux), the buffer element count the sender's
table computes for `d` equals the count the receiver's table computes
for the opposite direction `oside d` — the tables assign each
inner/outer pair the same expression, so fixed-size transfers are safe. -/
theorem c1_bufsize_matches_oside (g nx1 nx2 nx3 : ℤ) (nf : ℕ) (d : Fin 6) :
    fluid_bufsize g nx1 nx2 nx3 nf (d : ℕ)
        = fluid_bufsize g nx1 nx2 nx3 nf (oside (d : ℕ))
    ∧ field_bufsize g nx1 nx2 nx3 (d : ℕ)
        = field_bufsize g nx1 nx2 nx3 (oside (d : ℕ))
    ∧ eflux_bufsize g nx1 nx2 nx3 (d : ℕ)
        = eflux_bufsize g nx1 nx2 nx3 (oside (d : ℕ)) := by
  fin_cases d <;> exact ⟨rfl, rfl, rfl⟩

/-- C3: for every active direction and every channel, the number of
elements written by the pack loops of the `LoadAndSend…` functions (the
length of the packed buffer: product of axis extents per component,
summed over components) equals the buffer element count of the
Index-Range Table, so packing exactly fills the allocated buffer. -/
theorem c3_pack_fills_bufsize (g nx1 nx2 nx3 : ℤ) (nf : ℕ) (d : ℕ)
    (srcF : ℕ × ℤ × ℤ × ℤ → α) (srcB : FLoc → α) (srcE : EfLoc → α)
    (hg : 1 ≤ g) (h1 : 1 ≤ nx1) (h2 : 1 ≤ nx2) (h3 : 1 ≤ nx3)
    (h4 : 4 ≤ d → 1 < nx2) (hd : d < 6) :
    ((packCC nf (fluid_send_se g nx1 nx2 nx3 d) srcF).length : ℤ)
        = fluid_bufsize g nx1 nx2 nx3 nf d
    ∧ ((packField g nx1 nx2 nx3 d srcB).length : ℤ) = field_bufsize g nx1 nx2 nx3 d
    ∧ (((efluxSendLocs g nx1 nx2 nx3 d).map srcE).length : ℤ)
        = eflux_bufsize g nx1 nx2 nx3 d := by
  refine ⟨?_, ?_, ?_⟩
  · rw [packCC, List.length_map]
    exact fluid_send_len g nx1 nx2 nx3 nf d hg h1 h2 h3 h4 hd
  · rw [packField, List.length_map]
    exact field_send_len g nx1 nx2 nx3 d hg h1 h2 h3 h4 hd
  · rw [List.length_map]
    exact eflux_send_len g nx1 nx2 nx3 d hg h1 h2 h3 hd

/-- Witness for C3 at a concrete 3D geometry (`g = 2`,
`nx1 = nx2 = nx3 = 2`, one fluid component, direction inner-x1). -/
theorem c3_pack_fills_bufsize_witness :
    ((1:ℤ) ≤ 2 ∧ (1:ℤ) ≤ 2 ∧ (4 ≤ 0 → (1:ℤ) < 2) ∧ (0:ℕ) < 6)
    ∧ ((packCC 1 (fluid_send_se 2 2 2 2 0) (fun _ => (0:ℤ))).length : ℤ)
        = fluid_bufsize 2 2 2 2 1 0
    ∧ ((packField 2 2 2 2 0 (fun _ => (0:ℤ))).length : ℤ) = field_bufsize 2 2 2 2 0
    ∧ (((efluxSendLocs 2 2 2 2 0).map (fun _ => (0:ℤ))).length : ℤ)
        = eflux_bufsize 2 2 2 2 0 := by
  refine ⟨⟨by norm_num, by norm_num, by norm_num, by norm_num⟩, ?_⟩
  exact c3_pack_fills_bufsize 2 2 2 2 1 0 (fun _ => (0:ℤ)) (fun _ => (0:ℤ))
    (fun _ => (0:ℤ)) (by norm_num) (by norm_num) (by norm_num) (by norm_num)
    (by norm_num) (by norm_num)

/-- C5: in the VectorField send table, for every direction `d` the
component aligned with the exchanged face (face `d / 2`) has its send
range along the exchanged axis equal to the ghost-width face slab
adjacent to the boundary shifted inward by one layer (so the face
coincident with the boundary, `boundaryFace`, is excluded), while the
other two components' send ranges along that axis are the plain
ghost-width cell slab of thickness `g` adjacent to the boundary. -/
theorem c5_field_send_staggered (g nx1 nx2 nx3 : ℤ) (d : Fin 6) (b : Fin 3) :
    (axisBounds (field_send_se g nx1 nx2 nx3 (d : ℕ) ((d : ℕ) / 2)) ((d : ℕ) / 2)
      = (if (d : ℕ) % 2 = 0 then
          (boundaryFace g nx1 nx2 nx3 (d : ℕ) + 1, boundaryFace g nx1 nx2 nx3 (d : ℕ) + g)
         else
          (boundaryFace g nx1 nx2 nx3 (d : ℕ) - g, boundaryFace g nx1 nx2 nx3 (d : ℕ) - 1)))
    ∧ ¬ ((axisBounds (field_send_se g nx1 nx2 nx3 (d : ℕ) ((d : ℕ) / 2)) ((d : ℕ) / 2)).1
          ≤ boundaryFace g nx1 nx2 nx3 (d : ℕ)
        ∧ boundaryFace g nx1 nx2 nx3 (d : ℕ)
          ≤ (axisBounds (field_send_se g nx1 nx2 nx3 (d : ℕ) ((d : ℕ) / 2)) ((d : ℕ) / 2)).2)
    ∧ ((b : ℕ) ≠ (d : ℕ) / 2 →
        axisBounds (field_send_se g nx1 nx2 nx3 (d : ℕ) (b : ℕ)) ((d : ℕ) / 2)
          = (if (d : ℕ) % 2 = 0 then
              (axisLo g nx2 nx3 ((d : ℕ) / 2), axisLo g nx2 nx3 ((d : ℕ) / 2) + g - 1)
             else
              (axisHi g nx1 nx2 nx3 ((d : ℕ) / 2) - g + 1,
               axisHi g nx1 nx2 nx3 ((d : ℕ) / 2)))) := by
  fin_cases d <;> fin_cases b <;>
    refine ⟨?_, ?_, ?_⟩ <;>
    simp [axisBounds, axisLo, axisHi, boundaryFace, field_send_se,
      ibb_is, ibb_ie, ibb_js, ibb_je, ibb_ks, ibb_ke, Prod.ext_iff] <;>
    (try split_ifs) <;>
    omega

/-- Witness for C5 at direction inner-x2 and the non-aligned component
x1face: its j-range is the plain ghost-width slab. -/
theorem c5_field_send_staggered_witness :
    (0 : ℕ) ≠ (2 : ℕ) / 2
    ∧ axisBounds (field_send_se 2 4 4 4 2 0) 1 = (axisLo 2 4 4 1, axisLo 2 4 4 1 + 2 - 1) := by
  refine ⟨by norm_num, ?_⟩
  have h := (c5_field_send_staggered 2 4 4 4 ⟨2, by norm_num⟩ ⟨0, by norm_num⟩).2.2
    (by norm_num)
  simpa using h

theorem memcpyN_length_ge (n : ℕ) (src dst : List α) (h : n ≤ src.length) :
    n ≤ (memcpyN n src dst).length := by
  simp only [memcpyN, List.length_append, List.length_take, List.length_drop]
  omega

theorem memcpyN_getElem (n : ℕ) (src dst : List α) (p : ℕ) (hp : p < n)
    (hs : p < src.length) (h : p < (memcpyN n src dst).length) :
    (memcpyN n src dst)[p] = src[p] := by
  have h2 : p < (List.take n src).length := by
    rw [List.length_take]
    omega
  simp only [memcpyN]
  rw [List.getElem_append_left h2]
  exact List.getElem_take src

/-- C2: same-process fluid round trip.  If block B's neighbor in
direction `d` is block A on the same rank, then after B's
`LoadAndSendFluidBoundaryBuffer(d, src)` and A's
`ReceiveAndSetFluidBoundary(oside d, dst)`, the `p`-th element of A's
receive index range holds the `p`-th element of B's send index range
(same values, same order), and A's completion flag for that direction
is false immediately afterward. -/
theorem c2_fluid_local_roundtrip (g nx1 nx2 nx3 : ℤ) (nf : ℕ) (myrank : ℤ)
    (sB nbrA : ChanBdry α) (d : ℕ) (src dst : ℕ × ℤ × ℤ × ℤ → α)
    (handler : (ℕ × ℤ × ℤ × ℤ → α) → (ℕ × ℤ × ℤ × ℤ → α))
    (hg : 1 ≤ g) (h1 : 1 ≤ nx1) (h2 : 1 ≤ nx2) (h3 : 1 ≤ nx3)
    (h4 : 4 ≤ d → 1 < nx2) (hd : d < 6)
    (hnb : sB.nbrGid d ≠ -1) (hrk : sB.nbrRank d = myrank)
    (hA : nbrA.nbrGid (oside d) ≠ -1) :
    (∀ (p : ℕ)
      (hp : p < (locs4 nf (fluid_recv_se g nx1 nx2 nx3 (oside d))).length)
      (hp' : p < (locs4 nf (fluid_send_se g nx1 nx2 nx3 d)).length),
      (receiveAndSetFluidBoundary g nx1 nx2 nx3 nf
          (loadAndSendFluidBoundaryBuffer g nx1 nx2 nx3 nf myrank sB d src nbrA).2
          (oside d) handler dst).2.1
        ((locs4 nf (fluid_recv_se g nx1 nx2 nx3 (oside d))).get ⟨p, hp⟩)
      = src ((locs4 nf (fluid_send_se g nx1 nx2 nx3 d)).get ⟨p, hp'⟩))
    ∧ (receiveAndSetFluidBoundary g nx1 nx2 nx3 nf
        (loadAndSendFluidBoundaryBuffer g nx1 nx2 nx3 nf myrank sB d src nbrA).2
        (oside d) handler dst).1.flag (oside d) = false := by
  have hpackL : ((packCC nf (fluid_send_se g nx1 nx2 nx3 d) src).length : ℤ)
      = fluid_bufsize g nx1 nx2 nx3 nf d := by
    rw [packCC, List.length_map]
    exact fluid_send_len g nx1 nx2 nx3 nf d hg h1 h2 h3 h4 hd
  have hrecvL : ((locs4 nf (fluid_recv_se g nx1 nx2 nx3 (oside d))).length : ℤ)
      = fluid_bufsize g nx1 nx2 nx3 nf d := by
    rw [← fluid_bufsize_oside g nx1 nx2 nx3 nf hd]
    exact fluid_recv_len g nx1 nx2 nx3 nf (oside d) hg h1 h2 h3
      (fun h => h4 (oside_ge4 hd h)) (oside_lt6 hd)
  constructor
  · intro p hp hp'
    have hpn : p < (fluid_bufsize g nx1 nx2 nx3 nf d).toNat := by omega
    have hps : p < (packCC nf (fluid_send_se g nx1 nx2 nx3 d) src).length := by omega
    simp only [loadAndSendFluidBoundaryBuffer, if_neg hnb, hrk, if_pos,
      receiveAndSetFluidBoundary]
    simp only [if_neg hA, Function.update_same]
    rw [List.get_eq_getElem, List.get_eq_getElem,
      applyWrites_zip_getElem _ _ (nodup_locs4 _ _) _ p hp
        (lt_of_lt_of_le hpn (memcpyN_length_ge _ _ _ (by omega))),
      memcpyN_getElem _ _ _ p hpn hps]
    simp only [packCC, List.getElem_map]
  · simp only [loadAndSendFluidBoundaryBuffer, if_neg hnb, hrk, if_pos,
      receiveAndSetFluidBoundary]
    simp only [if_neg hA, Function.update_same]

/-- Witness for C2: 1D geometry `g = 2`, `nx1 = 2`, one component,
direction inner-x1; the first ghost element received by A equals the
first interior element sent by B. -/
theorem c2_fluid_local_roundtrip_witness :
    ((1:ℤ) ≤ 2 ∧ (1:ℤ) ≤ 1 ∧ (4 ≤ (0:ℕ) → (1:ℤ) < 1) ∧ (0:ℕ) < 6
      ∧ wB.nbrGid 0 ≠ -1 ∧ wB.nbrRank 0 = 0 ∧ wA.nbrGid (oside 0) ≠ -1)
    ∧ (receiveAndSetFluidBoundary 2 2 1 1 1
        (loadAndSendFluidBoundaryBuffer 2 2 1 1 1 0 wB 0
          (fun l => l.2.2.2) wA).2
        (oside 0) id (fun _ => 0)).2.1
        ((locs4 1 (fluid_recv_se 2 2 1 1 (oside 0))).get ⟨0, by decide⟩)
      = (fun l : ℕ × ℤ × ℤ × ℤ => l.2.2.2)
        ((locs4 1 (fluid_send_se 2 2 1 1 0)).get ⟨0, by decide⟩)
    ∧ (receiveAndSetFluidBoundary 2 2 1 1 1
        (loadAndSendFluidBoundaryBuffer 2 2 1 1 1 0 wB 0
          (fun l => l.2.2.2) wA).2
        (oside 0) id (fun _ => 0)).1.flag (oside 0) = false := by
  have h := c2_fluid_local_roundtrip 2 2 1 1 1 0 wB wA 0
    (fun l => l.2.2.2) (fun _ => 0) id (by norm_num) (by norm_num) (by norm_num)
    (by norm_num) (by norm_num) (by norm_num) (by decide) (by decide) (by decide)
  exact ⟨⟨by norm_num, by norm_num, by norm_num, by norm_num, by decide, by decide,
    by decide⟩, h.1 0 (by decide) (by decide), h.2⟩

/-- C8: for a direction whose neighbor gid is the sentinel -1 (physical
boundary), `LoadAndSendFluidBoundaryBuffer` returns immediately leaving
both blocks' buffers, flags and requests untouched, and
`ReceiveAndSetFluidBoundary` applies the registered physical-boundary
handler exactly once to the destination array, performs no buffer
traffic, leaves the block state (including the completion flag)
unchanged, and returns true. -/
theorem c8_physical_boundary_dispatch (g nx1 nx2 nx3 : ℤ) (nf : ℕ) (myrank : ℤ)
    (blk nbr : ChanBdry α) (d : ℕ) (src dst : ℕ × ℤ × ℤ × ℤ → α)
    (handler : (ℕ × ℤ × ℤ × ℤ → α) → (ℕ × ℤ × ℤ × ℤ → α))
    (hgid : blk.nbrGid d = -1) :
    loadAndSendFluidBoundaryBuffer g nx1 nx2 nx3 nf myrank blk d src nbr = (blk, nbr)
    ∧ receiveAndSetFluidBoundary g nx1 nx2 nx3 nf blk d handler dst
        = (blk, handler dst, true) := by
  constructor
  · simp [loadAndSendFluidBoundaryBuffer, hgid]
  · simp [receiveAndSetFluidBoundary, hgid]

/-- Witness for C8 on a block whose every direction is physical. -/
theorem c8_physical_boundary_dispatch_witness :
    wPhys.nbrGid 0 = -1
    ∧ loadAndSendFluidBoundaryBuffer 2 2 1 1 1 0 wPhys 0 (fun _ => 0) wA
        = (wPhys, wA)
    ∧ receiveAndSetFluidBoundary 2 2 1 1 1 wPhys 0 id (fun _ => 0)
        = (wPhys, id (fun _ => (0:ℤ)), true) := by
  have h := c8_physical_boundary_dispatch 2 2 1 1 1 0 wPhys wA 0
    (fun _ => 0) (fun _ => 0) id (by decide)
  exact ⟨by decide, h.1, h.2⟩

/-- C9 counterexample: the fluid post-receive step does not reset
completion flags.  On a block with a remote neighbor in direction 0 and
that flag already true, the flag is still true after
`StartReceivingFluid`, where the claim demands false. -/
theorem c9_counterexample :
    wFlagged.flag 0 = true
    ∧ wFlagged.nbrGid 0 ≠ -1
    ∧ ¬ ((startReceivingFluid 0 wFlagged).flag 0 = false) := by
  refine ⟨rfl, by decide, ?_⟩
  simp [startReceivingFluid, wFlagged]

/-- C9 as amended: the fluid and field post-receive steps
(`StartReceivingFluid`/`StartReceivingField`) leave all completion
flags unchanged — those flags are cleared on consumption instead — and
only the EdgeFlux post-receive step (`StartReceivingEFlux`) resets the
flags of every direction up to the active count to false, regardless of
their prior values. -/
theorem c9_amended_flag_reset (myrank nx2 nx3 : ℤ) (blk : ChanBdry α) :
    (startReceivingFluid myrank blk).flag = blk.flag
    ∧ (startReceivingField myrank blk).flag = blk.flag
    ∧ (nx2 ≠ 1 → ∀ i : ℕ, i < (if 1 < nx3 then 6 else 4) →
        (startReceivingEFlux myrank nx2 nx3 blk).flag i = false) := by
  refine ⟨rfl, rfl, fun h i hi => ?_⟩
  simp only [startReceivingEFlux, if_neg h]
  simp [hi]

/-- Witness for C9 as amended, on the concrete flagged block in 2D. -/
theorem c9_amended_flag_reset_witness :
    (startReceivingFluid 0 wFlagged).flag = wFlagged.flag
    ∧ ((2:ℤ) ≠ 1 ∧ (0:ℕ) < 4)
    ∧ (startReceivingEFlux 0 2 1 wFlagged).flag 0 = false := by
  have h := c9_amended_flag_reset 0 2 1 wFlagged
  refine ⟨h.1, ⟨by norm_num, by norm_num⟩, ?_⟩
  have h3 := h.2.2 (by norm_num) 0
  simp only [show ¬((1:ℤ) < 1) from by norm_num, if_neg] at h3
  exact h3 (by norm_num)

/-- C10: `ReceiveAndSetFluidBoundary`, `ReceiveAndSetFieldBoundary` and
`ReceiveAndSetEFluxBoundary` return true on every input and for every
prior state: remote waits are blocking, so the not-yet-ready return
path does not exist. -/
theorem c10_receive_always_true (g nx1 nx2 nx3 : ℤ) (nf : ℕ) (myrank : ℤ)
    (blk : ChanBdry α) (d : ℕ)
    (handlerF : (ℕ × ℤ × ℤ × ℤ → α) → (ℕ × ℤ × ℤ × ℤ → α))
    (dstF : ℕ × ℤ × ℤ × ℤ → α)
    (handlerB : (FLoc → α) → (FLoc → α)) (dstB : FLoc → α)
    (handlersE : ℕ → (EfLoc → α) → (EfLoc → α)) (dstE : EfLoc → α) :
    (receiveAndSetFluidBoundary g nx1 nx2 nx3 nf blk d handlerF dstF).2.2 = true
    ∧ (receiveAndSetFieldBoundary g nx1 nx2 nx3 blk d handlerB dstB).2.2 = true
    ∧ (receiveAndSetEFluxBoundary g nx1 nx2 nx3 myrank blk handlersE dstE).2.2
        = true := by
  refine ⟨?_, ?_, ?_⟩
  · rw [receiveAndSetFluidBoundary]
    split_ifs <;> rfl
  · rw [receiveAndSetFieldBoundary]
    split_ifs <;> rfl
  · rw [receiveAndSetEFluxBoundary]
    split_ifs <;> rfl

theorem ctorFold_ok (bcs : ℕ → ℤ) (L : List ℕ) (f0 : ℕ → Option BCKind)
    (h : ∀ d ∈ L, classifyBC (bcs d) ≠ none) :
    ∃ f, ctorFold bcs L f0 = .ok f
      ∧ (∀ d ∈ L, f d = classifyBC (bcs d))
      ∧ (∀ x, x ∉ L → f x = f0 x) := by
  induction L generalizing f0 with
  | nil => exact ⟨f0, rfl, by simp, fun x _ => rfl⟩
  | cons d rest ih =>
    have hd := h d (by simp)
    rcases hk : classifyBC (bcs d) with _ | k
    · exact absurd hk hd
    · obtain ⟨f, hf, hmem, hout⟩ :=
        ih (Function.update f0 d (some k)) (fun x hx => h x (by simp [hx]))
      refine ⟨f, by simp [ctorFold, hk, hf], ?_, ?_⟩
      · intro x hx
        rcases List.mem_cons.mp hx with rfl | hx'
        · by_cases hxr : x ∈ rest
          · exact hmem x hxr
          · rw [hout x hxr, Function.update_same, hk]
        · exact hmem x hx'
      · intro x hx
        simp only [List.mem_cons, not_or] at hx
        rw [hout x hx.2, Function.update_noteq hx.1]

theorem ctorFold_err (bcs : ℕ → ℤ) (L : List ℕ) (f0 : ℕ → Option BCKind)
    (d : ℕ) (hd : d ∈ L) (hbad : classifyBC (bcs d) = none) :
    ∃ d', d' ∈ L ∧ classifyBC (bcs d') = none
      ∧ ctorFold bcs L f0 = .error (d', bcs d') := by
  induction L generalizing f0 with
  | nil => simp at hd
  | cons x rest ih =>
    rcases hk : classifyBC (bcs x) with _ | k
    · exact ⟨x, by simp, hk, by simp [ctorFold, hk]⟩
    · have hdr : d ∈ rest := by
        rcases List.mem_cons.mp hd with rfl | h'
        · exact absurd hk (by simp [hbad])
        · exact h'
      obtain ⟨d', hd', hbad', herr⟩ := ih (Function.update f0 x (some k)) hdr
      exact ⟨d', by simp [hd'], hbad', by simp [ctorFold, hk, herr]⟩

/-- C6 counterexample: with a 1D block (`nx2 = nx3 = 1`), the inner-x2
switch never runs, so an unrecognised code 99 on that direction does
not raise the fatal configuration error — construction succeeds. -/
theorem c6_counterexample :
    c6bcs 2 = 99
    ∧ classifyBC (c6bcs 2) = none
    ∧ (bvalsCtor c6bcs 1 1).isOk = true := by
  refine ⟨by decide, by decide, by decide⟩

/-- C6 as amended: for every direction whose switch the constructor
executes (x1 always, x2 only when `nx2 > 1`, x3 only when `nx3 > 1`):
if every such direction's code is recognised, construction succeeds and
assigns each such direction the handler its code selects (reflecting
for 1, outflow for 2, the NULL neighbor-transfer placeholder for
-1/3/4) and leaves all other slots unassigned; while if some such
direction's code is unrecognised, the constructor raises a fatal error
naming an offending direction and its invalid code value.  Codes of
directions beyond the active dimensionality are ignored. -/
theorem c6_amended_ctor_validation (bcs : ℕ → ℤ) (nx2 nx3 : ℤ) :
    ((∀ d ∈ ctorDirs nx2 nx3, classifyBC (bcs d) ≠ none) →
      ∃ f, bvalsCtor bcs nx2 nx3 = .ok f
        ∧ (∀ d ∈ ctorDirs nx2 nx3, f d = classifyBC (bcs d))
        ∧ (∀ x, x ∉ ctorDirs nx2 nx3 → f x = none))
    ∧ (∀ d ∈ ctorDirs nx2 nx3, classifyBC (bcs d) = none →
        ∃ d', d' ∈ ctorDirs nx2 nx3 ∧ classifyBC (bcs d') = none
          ∧ bvalsCtor bcs nx2 nx3 = .error (d', bcs d')) := by
  constructor
  · intro h
    exact ctorFold_ok bcs (ctorDirs nx2 nx3) (fun _ => none) h
  · intro d hd hbad
    exact ctorFold_err bcs (ctorDirs nx2 nx3) (fun _ => none) d hd hbad

/-- Witness for C6 as amended: a 3D block with all-periodic codes
constructs successfully with NULL placeholders everywhere. -/
theorem c6_amended_ctor_validation_witness :
    (∀ d ∈ ctorDirs 2 2, classifyBC ((fun _ => (4:ℤ)) d) ≠ none)
    ∧ ∃ f, bvalsCtor (fun _ => (4:ℤ)) 2 2 = .ok f
        ∧ (∀ d ∈ ctorDirs 2 2, f d = classifyBC ((fun _ => (4:ℤ)) d))
        ∧ (∀ x, x ∉ ctorDirs 2 2 → f x = none) := by
  refine ⟨by decide, ?_⟩
  exact (c6_amended_ctor_validation (fun _ => 4) 2 2).1 (by decide)

/-- C7 counterexample: enrolling a user-defined fluid handler on an
in-range direction whose mesh code is the user-defined flag 3 but which
is backed by an actual neighbor descriptor (gid 7 ≠ -1) is NOT a fatal
error: the call returns normally and silently leaves the handler table
unchanged. -/
theorem c7_counterexample :
    c7gid 0 ≠ -1
    ∧ enrollFluidBoundaryFunction c7mesh c7gid c7fb 0 .user = .ok c7fb
    ∧ enrollFieldBoundaryFunction c7mesh c7gid c7fb 0 .user = .ok c7fb := by
  refine ⟨by decide, ?_, ?_⟩ <;>
    simp [enrollFluidBoundaryFunction, enrollFieldBoundaryFunction, c7mesh, c7gid]

/-- C7 as amended: enrollment (fluid and field alike) is a fatal
configuration error exactly when the direction index is out of range or
the direction's configured mesh boundary code is not the user-defined
code 3; on an in-range user-defined direction the handler is installed
when there is no neighbor (gid = -1) and silently ignored — with no
error — when the direction is backed by an actual neighbor descriptor. -/
theorem c7_amended_enroll (meshBcs nbrGid : ℕ → ℤ) (fb : ℕ → Option BCKind)
    (dir : ℤ) (mybc : BCKind) :
    ((dir < 0 ∨ 5 < dir) →
      enrollFluidBoundaryFunction meshBcs nbrGid fb dir mybc = .error (.badDir dir)
      ∧ enrollFieldBoundaryFunction meshBcs nbrGid fb dir mybc = .error (.badDir dir))
    ∧ (¬(dir < 0 ∨ 5 < dir) → meshBcs dir.toNat ≠ 3 →
      enrollFluidBoundaryFunction meshBcs nbrGid fb dir mybc = .error (.notUserFlag dir)
      ∧ enrollFieldBoundaryFunction meshBcs nbrGid fb dir mybc
          = .error (.notUserFlag dir))
    ∧ (¬(dir < 0 ∨ 5 < dir) → meshBcs dir.toNat = 3 → nbrGid dir.toNat = -1 →
      enrollFluidBoundaryFunction meshBcs nbrGid fb dir mybc
          = .ok (Function.update fb dir.toNat (some mybc))
      ∧ enrollFieldBoundaryFunction meshBcs nbrGid fb dir mybc
          = .ok (Function.update fb dir.toNat (some mybc)))
    ∧ (¬(dir < 0 ∨ 5 < dir) → meshBcs dir.toNat = 3 → nbrGid dir.toNat ≠ -1 →
      enrollFluidBoundaryFunction meshBcs nbrGid fb dir mybc = .ok fb
      ∧ enrollFieldBoundaryFunction meshBcs nbrGid fb dir mybc = .ok fb) := by
  refine ⟨fun h => ?_, fun h h2 => ?_, fun h h2 h3 => ?_, fun h h2 h3 => ?_⟩ <;>
    constructor <;>
    simp [enrollFluidBoundaryFunction, enrollFieldBoundaryFunction, *]

/-- Witness for C7 as amended: out-of-range direction 9 raises the
fatal range error. -/
theorem c7_amended_enroll_witness :
    (((9:ℤ) < 0 ∨ (5:ℤ) < 9))
    ∧ enrollFluidBoundaryFunction c7mesh c7gid c7fb 9 .user
        = .error (.badDir 9)
    ∧ enrollFieldBoundaryFunction c7mesh c7gid c7fb 9 .user
        = .error (.badDir 9) := by
  have h := (c7_amended_enroll c7mesh c7gid c7fb 9 .user).1 (by norm_num)
  exact ⟨by norm_num, h.1, h.2⟩

theorem nodup_map_range (a b : ℤ) (f : ℤ → EfLoc)
    (hf : ∀ x y, f x = f y → x = y) : ((intRange a b).map f).Nodup :=
  List.Nodup.map (fun x y h => hf x y h) (nodup_intRange a b)

theorem nodup_map_prod (a b c d : ℤ) (f : ℤ × ℤ → EfLoc)
    (hf : ∀ x y u v, f (x, y) = f (u, v) → x = u ∧ y = v) :
    (((intRange a b) ×ˢ (intRange c d)).map f).Nodup := by
  refine List.Nodup.map ?_ ((nodup_intRange _ _).product (nodup_intRange _ _))
  rintro ⟨x, y⟩ ⟨u, v⟩ h
  have h2 := hf x y u v h
  simp [Prod.ext_iff, h2.1, h2.2]

theorem efluxRecvLocs2D_nodup (g nx1 nx2 : ℤ) (T : ℕ) :
    (efluxRecvLocs2D g nx1 nx2 T).Nodup := by
  rcases T with _ | _ | _ | _ | T <;>
    simp only [efluxRecvLocs2D, List.nodup_append, List.nodup_nil,
      List.disjoint_append_right, List.disjoint_append_left] <;>
    try trivial
  all_goals repeat' apply And.intro
  all_goals
    first
      | exact nodup_map_range _ _ _ (fun x y h => by simpa using h)
      | (intro ℓ hx hy
         simp only [List.mem_map] at hx hy
         obtain ⟨a, _, rfl⟩ := hx
         obtain ⟨b, _, hb⟩ := hy
         simp at hb)

theorem efluxRecvLocs3D_nodup (g nx1 nx2 nx3 : ℤ) (T : ℕ) :
    (efluxRecvLocs3D g nx1 nx2 nx3 T).Nodup := by
  rcases T with _ | _ | _ | _ | _ | _ | T <;>
    simp only [efluxRecvLocs3D, List.nodup_append, List.nodup_nil,
      List.disjoint_append_right, List.disjoint_append_left] <;>
    try trivial
  all_goals repeat' apply And.intro
  all_goals
    first
      | exact nodup_map_prod _ _ _ _ _ (fun x y u v h => by simpa using h)
      | (intro ℓ hx hy
         simp only [List.mem_map] at hx hy
         obtain ⟨a, _, rfl⟩ := hx
         obtain ⟨b, _, hb⟩ := hy
         simp at hb)

theorem efluxRecvLocs_nodup (g nx1 nx2 nx3 : ℤ) (T : ℕ) :
    (efluxRecvLocs g nx1 nx2 nx3 T).Nodup := by
  rw [efluxRecvLocs]
  split_ifs
  · exact List.nodup_nil
  · exact efluxRecvLocs2D_nodup g nx1 nx2 T
  · exact efluxRecvLocs3D_nodup g nx1 nx2 nx3 T

set_option maxHeartbeats 1000000 in
theorem efluxRecvLocs2D_disjoint (g nx1 nx2 : ℤ) (hg : 1 ≤ g) (h1 : 1 ≤ nx1)
    (h2 : 1 < nx2) {T t : ℕ} (hT : T < 4) (ht : t < 4) (hne : T ≠ t)
    {ℓ : EfLoc} (hmem : ℓ ∈ efluxRecvLocs2D g nx1 nx2 T) :
    ℓ ∉ efluxRecvLocs2D g nx1 nx2 t := by
  intro hmem2
  interval_cases T <;> interval_cases t <;> (try exact hne rfl) <;>
  · simp only [efluxRecvLocs2D, List.mem_append, List.mem_map, mem_intRange,
      ibb_is, ibb_ie, ibb_js, ibb_je, if_pos h2] at hmem hmem2
    rcases hmem with ⟨j, hj, rfl⟩ | ⟨j, hj, rfl⟩ <;>
      rcases hmem2 with ⟨j2, hj2, he⟩ | ⟨j2, hj2, he⟩ <;>
      simp [X1E3, X2E3] at he <;>
      omega

set_option maxHeartbeats 4000000 in
theorem efluxRecvLocs3D_disjoint (g nx1 nx2 nx3 : ℤ) (hg : 1 ≤ g) (h1 : 1 ≤ nx1)
    (h2 : 1 < nx2) (h3 : 1 < nx3) {T t : ℕ} (hT : T < 6) (ht : t < 6) (hne : T ≠ t)
    {ℓ : EfLoc} (hmem : ℓ ∈ efluxRecvLocs3D g nx1 nx2 nx3 T) :
    ℓ ∉ efluxRecvLocs3D g nx1 nx2 nx3 t := by
  intro hmem2
  interval_cases T <;> interval_cases t <;> (try exact hne rfl) <;>
  · simp only [efluxRecvLocs3D, List.mem_append, List.mem_map, Prod.exists,
      List.mem_product, mem_intRange, ibb_is, ibb_ie, ibb_js, ibb_je, ibb_ks,
      ibb_ke, if_pos h2, if_pos h3] at hmem hmem2
    rcases hmem with ((⟨k, j, hj, rfl⟩ | ⟨k, j, hj, rfl⟩) | ⟨k, j, hj, rfl⟩)
        | ⟨k, j, hj, rfl⟩ <;>
      rcases hmem2 with ((⟨k2, j2, hj2, he⟩ | ⟨k2, j2, hj2, he⟩) | ⟨k2, j2, hj2, he⟩)
        | ⟨k2, j2, hj2, he⟩ <;>
      simp [X1E2, X1E3, X2E3, X2E1, X3E1, X3E2] at he <;>
      omega

theorem efluxRecvLocs_disjoint (g nx1 nx2 nx3 : ℤ) (hg : 1 ≤ g) (h1 : 1 ≤ nx1)
    (h2 : 1 < nx2) (h3 : 1 ≤ nx3) {T t : ℕ}
    (hT : T < (if 1 < nx3 then 6 else 4)) (ht : t < (if 1 < nx3 then 6 else 4))
    (hne : T ≠ t) {ℓ : EfLoc} (hmem : ℓ ∈ efluxRecvLocs g nx1 nx2 nx3 T) :
    ℓ ∉ efluxRecvLocs g nx1 nx2 nx3 t := by
  rw [efluxRecvLocs, if_neg (by omega : ¬ nx2 = 1)] at hmem ⊢
  by_cases hc : nx3 = 1
  · rw [if_pos hc] at hmem ⊢
    rw [if_neg (by omega : ¬ (1 < nx3))] at hT ht
    exact efluxRecvLocs2D_disjoint g nx1 nx2 hg h1 h2 hT ht hne hmem
  · rw [if_neg hc] at hmem ⊢
    rw [if_pos (by omega : 1 < nx3)] at hT ht
    exact efluxRecvLocs3D_disjoint g nx1 nx2 nx3 hg h1 h2 (by omega) hT ht hne hmem

set_option maxHeartbeats 1000000 in
theorem receiveAndSetEFlux_getElem (g nx1 nx2 nx3 : ℤ) (myrank : ℤ)
    (blk : ChanBdry α) (handlers : ℕ → (EfLoc → α) → (EfLoc → α)) (dst : EfLoc → α)
    (T p : ℕ) (hg : 1 ≤ g) (h1 : 1 ≤ nx1) (h2 : 1 < nx2) (h3 : 1 ≤ nx3)
    (hT : T < (if 1 < nx3 then 6 else 4))
    (hAall : ∀ t, t < (if 1 < nx3 then 6 else 4) → blk.nbrGid t ≠ -1)
    (hp : p < (efluxRecvLocs g nx1 nx2 nx3 T).length)
    (hv : p < (blk.recv T).length) :
    (receiveAndSetEFluxBoundary g nx1 nx2 nx3 myrank blk handlers dst).2.1
      ((efluxRecvLocs g nx1 nx2 nx3 T).get ⟨p, hp⟩)
    = (blk.recv T).get ⟨p, hv⟩ := by
  rw [List.get_eq_getElem, List.get_eq_getElem]
  have hmemT : (efluxRecvLocs g nx1 nx2 nx3 T)[p] ∈ efluxRecvLocs g nx1 nx2 nx3 T :=
    List.getElem_mem hp
  have hpres : ∀ t (X : EfLoc → α), t < (if 1 < nx3 then 6 else 4) → t ≠ T →
      efluxConsume g nx1 nx2 nx3 blk handlers t X
        ((efluxRecvLocs g nx1 nx2 nx3 T)[p])
      = X ((efluxRecvLocs g nx1 nx2 nx3 T)[p]) := by
    intro t X ht htne
    rw [efluxConsume, if_neg (hAall t ht)]
    apply applyWrites_notMem
    intro hmm
    rcases List.mem_map.mp hmm with ⟨q, hq, hfst⟩
    have hq2 := (List.of_mem_zip hq).1
    exact efluxRecvLocs_disjoint g nx1 nx2 nx3 hg h1 h2 h3 hT ht
      (Ne.symm htne) hmemT (hfst ▸ hq2)
  have hhit : ∀ X : EfLoc → α,
      efluxConsume g nx1 nx2 nx3 blk handlers T X
        ((efluxRecvLocs g nx1 nx2 nx3 T)[p])
      = (blk.recv T)[p] := by
    intro X
    rw [efluxConsume, if_neg (hAall T hT)]
    exact applyWrites_zip_getElem _ _ (efluxRecvLocs_nodup g nx1 nx2 nx3 T) _ p hp hv
  rw [receiveAndSetEFluxBoundary, if_neg (by omega : ¬ nx2 = 1)]
  by_cases hc : 1 < nx3
  · rw [if_pos hc] at hT ⊢
    simp only
    interval_cases T
    · rw [hpres 5 _ (by simp [hc]) (by omega), hpres 4 _ (by simp [hc]) (by omega),
        hpres 3 _ (by simp [hc]) (by omega), hpres 2 _ (by simp [hc]) (by omega),
        hpres 1 _ (by simp [hc]) (by omega), hhit]
    · rw [hpres 5 _ (by simp [hc]) (by omega), hpres 4 _ (by simp [hc]) (by omega),
        hpres 3 _ (by simp [hc]) (by omega), hpres 2 _ (by simp [hc]) (by omega),
        hhit]
    · rw [hpres 5 _ (by simp [hc]) (by omega), hpres 4 _ (by simp [hc]) (by omega),
        hpres 3 _ (by simp [hc]) (by omega), hhit]
    · rw [hpres 5 _ (by simp [hc]) (by omega), hpres 4 _ (by simp [hc]) (by omega),
        hhit]
    · rw [hpres 5 _ (by simp [hc]) (by omega), hhit]
    · rw [hhit]
  · rw [if_neg hc] at hT ⊢
    simp only
    interval_cases T
    · rw [hpres 3 _ (by simp [hc]) (by omega), hpres 2 _ (by simp [hc]) (by omega),
        hpres 1 _ (by simp [hc]) (by omega), hhit]
    · rw [hpres 3 _ (by simp [hc]) (by omega), hpres 2 _ (by simp [hc]) (by omega),
        hhit]
    · rw [hpres 3 _ (by simp [hc]) (by omega), hhit]
    · rw [hhit]

theorem efluxSendLocs_eq_segs (g nx1 nx2 nx3 : ℤ) (d : ℕ) :
    efluxSendLocs g nx1 nx2 nx3 d
      = (efluxSendSegs g nx1 nx2 nx3 d).flatMap (fun s => s.1 ++ s.2) := by
  rw [efluxSendLocs, efluxSendSegs]
  split_ifs
  · rfl
  · rcases d with _ | _ | _ | _ | d <;> simp [efluxSendLocs2D, efluxSendSegs2D]
  · rcases d with _ | _ | _ | _ | _ | _ | d <;>
      simp [efluxSendLocs3D, efluxSendSegs3D]

theorem efluxSendSegs_pairing (g nx1 nx2 nx3 : ℤ) (d : ℕ) :
    ∀ s ∈ efluxSendSegs g nx1 nx2 nx3 d,
      s.1.length = s.2.length
      ∧ ∀ (m : ℕ) (hm1 : m < s.1.length) (hm2 : m < s.2.length),
          s.2.get ⟨m, hm2⟩ = pairedLoc (s.1.get ⟨m, hm1⟩) := by
  intro s hs
  rw [efluxSendSegs] at hs
  split_ifs at hs
  · simp at hs
  · rcases d with _ | _ | _ | _ | d <;>
      simp only [efluxSendSegs2D, List.mem_singleton, List.not_mem_nil] at hs
    all_goals
      subst hs
      refine ⟨by simp, fun m hm1 hm2 => ?_⟩
      rw [List.get_eq_getElem, List.get_eq_getElem, List.getElem_map,
        List.getElem_map]
      rfl
  · rcases d with _ | _ | _ | _ | _ | _ | d <;>
      simp only [efluxSendSegs3D, List.mem_cons, List.not_mem_nil, or_false] at hs
    all_goals
      rcases hs with hs | hs <;>
        (subst hs
         refine ⟨by simp, fun m hm1 hm2 => ?_⟩
         rw [List.get_eq_getElem, List.get_eq_getElem, List.getElem_map,
           List.getElem_map]
         rfl)

/-- C4 as amended: the EdgeFlux transfer packs, per edge segment, all of
the segment's flux samples contiguously and then all of their paired
weight samples in the same traversal order (pair `m` sits at offsets
`m` and `L + m` of the segment block, not adjacently), and across a
same-process transfer the value/weight pairs are delivered intact and
in exactly the order they were packed: the receiver's ghost edge
location at position `p` of the unpack order receives the sender's
sample at position `p` of the pack order. -/
theorem c4_amended_eflux_pairs (g nx1 nx2 nx3 : ℤ) (myrank : ℤ)
    (sB A : ChanBdry α) (d : ℕ) (src dst : EfLoc → α)
    (handlers : ℕ → (EfLoc → α) → (EfLoc → α))
    (hg : 1 ≤ g) (h1 : 1 ≤ nx1) (h2 : 1 < nx2) (h3 : 1 ≤ nx3)
    (hd : d < (if 1 < nx3 then 6 else 4))
    (hnb : sB.nbrGid d ≠ -1) (hrk : sB.nbrRank d = myrank)
    (hAall : ∀ t, t < (if 1 < nx3 then 6 else 4) → A.nbrGid t ≠ -1) :
    (efluxSendLocs g nx1 nx2 nx3 d
      = (efluxSendSegs g nx1 nx2 nx3 d).flatMap (fun s => s.1 ++ s.2))
    ∧ (∀ s ∈ efluxSendSegs g nx1 nx2 nx3 d,
        s.1.length = s.2.length
        ∧ ∀ (m : ℕ) (hm1 : m < s.1.length) (hm2 : m < s.2.length),
            s.2.get ⟨m, hm2⟩ = pairedLoc (s.1.get ⟨m, hm1⟩))
    ∧ (∀ (p : ℕ)
        (hp : p < (efluxRecvLocs g nx1 nx2 nx3 (oside d)).length)
        (hp' : p < (efluxSendLocs g nx1 nx2 nx3 d).length),
        (receiveAndSetEFluxBoundary g nx1 nx2 nx3 myrank
            (loadAndSendEFluxPair g nx1 nx2 nx3 myrank sB src d A).2
            handlers dst).2.1
          ((efluxRecvLocs g nx1 nx2 nx3 (oside d)).get ⟨p, hp⟩)
        = src ((efluxSendLocs g nx1 nx2 nx3 d).get ⟨p, hp'⟩)) := by
  have hne1 : ¬ nx2 = 1 := by omega
  have hd6 : d < 6 := by
    by_cases hx : 1 < nx3 <;> simp [hx] at hd <;> omega
  have hosideT : oside d < (if 1 < nx3 then 6 else 4) := by
    by_cases hx : 1 < nx3 <;> simp only [hx, if_true, if_false] at hd ⊢ <;>
      (rw [oside]; split_ifs <;> omega)
  refine ⟨efluxSendLocs_eq_segs g nx1 nx2 nx3 d,
    efluxSendSegs_pairing g nx1 nx2 nx3 d, ?_⟩
  intro p hp hp'
  have hsendL : ((efluxSendLocs g nx1 nx2 nx3 d).length : ℤ)
      = eflux_bufsize g nx1 nx2 nx3 d :=
    eflux_send_len g nx1 nx2 nx3 d hg h1 (by omega) h3 hd6
  have hrecvL : ((efluxRecvLocs g nx1 nx2 nx3 (oside d)).length : ℤ)
      = eflux_bufsize g nx1 nx2 nx3 d := by
    rw [← eflux_bufsize_oside g nx1 nx2 nx3 hd6]
    exact eflux_recv_len g nx1 nx2 nx3 (oside d) hg h1 (by omega) h3 (oside_lt6 hd6)
  have hpackL : ((efluxSendLocs g nx1 nx2 nx3 d).map src).length
      = (eflux_bufsize g nx1 nx2 nx3 d).toNat := by
    rw [List.length_map]
    omega
  have hple : p < (eflux_bufsize g nx1 nx2 nx3 d).toNat := by omega
  have hA2 : (loadAndSendEFluxPair g nx1 nx2 nx3 myrank sB src d A).2
      = { A with
          recv := Function.update A.recv (oside d)
            (memcpyN (eflux_bufsize g nx1 nx2 nx3 d).toNat
              ((efluxSendLocs g nx1 nx2 nx3 d).map src) (A.recv (oside d))),
          flag := Function.update A.flag (oside d) true } := by
    rw [loadAndSendEFluxPair, if_neg hne1]
    simp only [efluxRouteDir, efluxPackAll, if_neg hne1]
    rw [if_neg hnb, if_pos hrk]
    simp only [if_pos (And.intro hd hnb)]
  rw [hA2]
  have hv : p < ((Function.update A.recv (oside d)
      (memcpyN (eflux_bufsize g nx1 nx2 nx3 d).toNat
        ((efluxSendLocs g nx1 nx2 nx3 d).map src) (A.recv (oside d)))) (oside d)).length := by
    rw [Function.update_same]
    exact lt_of_lt_of_le hple
      (memcpyN_length_ge _ _ _ (le_of_eq hpackL.symm))
  have hchain := receiveAndSetEFlux_getElem g nx1 nx2 nx3 myrank
    { A with
      recv := Function.update A.recv (oside d)
        (memcpyN (eflux_bufsize g nx1 nx2 nx3 d).toNat
          ((efluxSendLocs g nx1 nx2 nx3 d).map src) (A.recv (oside d))),
      flag := Function.update A.flag (oside d) true }
    handlers dst (oside d) p hg h1 h2 h3 hosideT hAall hp hv
  rw [hchain, List.get_eq_getElem]
  have hmc : ((Function.update A.recv (oside d)
      (memcpyN (eflux_bufsize g nx1 nx2 nx3 d).toNat
        ((efluxSendLocs g nx1 nx2 nx3 d).map src) (A.recv (oside d)))) (oside d))
      = memcpyN (eflux_bufsize g nx1 nx2 nx3 d).toNat
        ((efluxSendLocs g nx1 nx2 nx3 d).map src) (A.recv (oside d)) :=
    Function.update_same _ _ _
  rw [List.getElem_of_eq hmc, memcpyN_getElem _ _ _ p hple (by omega),
    List.getElem_map, List.get_eq_getElem]

/-- C4 counterexample: the claim that each flux value and its paired
weight are packed as an adjacent pair (pair `m` at buffer offsets `2m`
and `2m + 1`) is false.  Concrete input: 2D geometry `g = 2`,
`nx1 = nx2 = 2`, direction inner-x1, flux samples `j ∈ {2,3,4}` with
values `j` and weights `100 + j`: the packed buffer is
`[2, 3, 4, 102, 103, 104]` — all values first, then all weights — so
offset 1 holds the second flux value 3, not the first weight 102. -/
theorem c4_counterexample :
    ¬ (∀ m : ℕ, m < 3 →
        ((efluxSendLocs 2 2 2 1 0).map c4src).get? (2 * m) = some (2 + (m : ℤ))
        ∧ ((efluxSendLocs 2 2 2 1 0).map c4src).get? (2 * m + 1)
            = some (102 + (m : ℤ))) := by
  decide

/-- Witness for C4 as amended on the same concrete 2D input: the
segment layout equation holds and the first packed sample is delivered
to the first ghost edge location. -/
theorem c4_amended_eflux_pairs_witness :
    (wB.nbrGid 0 ≠ -1 ∧ wB.nbrRank 0 = 0 ∧ (∀ t, t < 4 → wA.nbrGid t ≠ -1))
    ∧ (efluxSendLocs 2 2 2 1 0
        = (efluxSendSegs 2 2 2 1 0).flatMap (fun s => s.1 ++ s.2))
    ∧ (receiveAndSetEFluxBoundary 2 2 2 1 0
          (loadAndSendEFluxPair 2 2 2 1 0 wB c4src 0 wA).2
          (fun _ f => f) (fun _ => 0)).2.1
        ((efluxRecvLocs 2 2 2 1 (oside 0)).get ⟨0, by decide⟩)
      = c4src ((efluxSendLocs 2 2 2 1 0).get ⟨0, by decide⟩) := by
  have h := c4_amended_eflux_pairs 2 2 2 1 0 wB wA 0 c4src (fun _ => 0)
    (fun _ f => f) (by norm_num) (by norm_num) (by norm_num) (by norm_num)
    (by norm_num) (by decide) (by decide) (by decide)
  exact ⟨⟨by decide, by decide, by decide⟩, h.1, h.2.2 0 (by decide) (by decide)⟩
